import Mathlib

/-!
Verification development for the SpaceShooterGame simulation core.

The TypeScript source (GameEngine, PhysicsEngine, EnemySpawner,
PowerUpSpawner, CollisionDetection and the shared GameTypes) is shallowly
embedded below.  JavaScript numbers are modelled as rationals (ℚ), the
string-valued enums as `String` tags, arrays as `List`, and in-place
mutation as explicit state passing.  Wall-clock reads (`Date.now()`) are
passed in as an explicit `now : ℚ` parameter, `Math.random()` draws as
explicit rational inputs, and the transcendental `Math` primitives
(`sin`, `cos`, `sqrt`, `atan2`, `PI`) as an abstract `MathModel`
parameter, so every definition stays executable.  The generation-stamped
id strings (built from `Date.now()` and `Math.random()`) are opaque to
the simulation; they are modelled as fixed tag strings.
-/

namespace SpaceShooter

/-- The source's `Position` / `Velocity` shape: a pair of JS numbers. -/
structure Vec where
  x : ℚ
  y : ℚ
deriving DecidableEq

/-- The source's `Size` shape. -/
structure Size where
  width : ℚ
  height : ℚ
deriving DecidableEq

/-- The source's `GameObject` base interface (GameTypes.ts).  The optional
animation properties are never read by the simulation core and are omitted.
`rotation` is the heading in radians. -/
structure GameObject where
  id : String
  position : Vec
  velocity : Vec
  size : Size
  rotation : ℚ
  health : ℚ
  maxHealth : ℚ
  isActive : Bool
deriving DecidableEq

/-- The source's `PowerUpEffect` interface. -/
structure PowerUpEffect where
  effectType : String
  value : ℚ
  duration : ℚ
deriving DecidableEq

/-- The source's `PowerUp` interface (`PowerUp extends GameObject`). -/
structure PowerUp extends GameObject where
  powerUpType : String
  duration : ℚ
  effect : PowerUpEffect
deriving DecidableEq

/-- The source's `Player` interface (`Player extends GameObject`). -/
structure Player extends GameObject where
  playerId : String
  playerName : String
  score : ℚ
  lives : ℚ
  weaponType : String
  powerUps : List PowerUp
  isLocalPlayer : Bool
deriving DecidableEq

/-- The source's `Enemy` interface (`Enemy extends GameObject`).
`lastShotTime` is the dynamic property attached by
`PhysicsEngine.handleEnemyShooting`; it is absent (`none`) until the
physics engine first touches the enemy. -/
structure Enemy extends GameObject where
  enemyType : String
  damage : ℚ
  points : ℚ
  attackPattern : String
  lastShotTime : Option ℚ
deriving DecidableEq

/-- The source's `Bullet` interface (`Bullet extends GameObject`). -/
structure Bullet extends GameObject where
  damage : ℚ
  ownerId : String
  bulletType : String
  isPlayerBullet : Bool
deriving DecidableEq

/-- The source's `Explosion` interface (not a full `GameObject`). -/
structure Explosion where
  id : String
  position : Vec
  size : Size
  duration : ℚ
  currentFrame : ℚ
  animationProgress : ℚ
deriving DecidableEq

/-- The source's `GameState` aggregate (GameTypes.ts). -/
structure GameState where
  players : List Player
  enemies : List Enemy
  bullets : List Bullet
  powerUps : List PowerUp
  explosions : List Explosion
  score : ℚ
  level : ℚ
  wave : ℚ
  enemiesKilled : ℚ
  powerUpsCollected : ℚ
  accuracy : ℚ
  gameStatus : String
  isPaused : Bool
  timeElapsed : ℚ
  isMultiplayer : Bool
deriving DecidableEq

/-- The source's `GameConfig` interface. -/
structure GameConfig where
  screenWidth : ℚ
  screenHeight : ℚ
  playerSpeed : ℚ
  bulletSpeed : ℚ
  enemySpeed : ℚ
  spawnRate : ℚ
  difficulty : String
deriving DecidableEq

/-- Abstract model of the JavaScript `Math` primitives used by the
physics code (`Math.sin`, `Math.cos`, `Math.sqrt`, `Math.atan2`,
`Math.PI`).  Theorems are parametric in this model; concrete witnesses
may instantiate it with any computable functions, because on the inputs
they evaluate the code never consults these primitives (or the claim is
an equation that holds for every model). -/
structure MathModel where
  sin : ℚ → ℚ
  cos : ℚ → ℚ
  sqrt : ℚ → ℚ
  atan2 : ℚ → ℚ → ℚ
  pi : ℚ

/-! ## CollisionDetection.ts -/

/-- `CollisionDetection.checkAABBCollision(pos1, size1, pos2, size2)`. -/
def checkAABBCollision (pos1 : Vec) (size1 : Size) (pos2 : Vec) (size2 : Size) : Bool :=
  let left1 := pos1.x - size1.width / 2
  let right1 := pos1.x + size1.width / 2
  let top1 := pos1.y - size1.height / 2
  let bottom1 := pos1.y + size1.height / 2
  let left2 := pos2.x - size2.width / 2
  let right2 := pos2.x + size2.width / 2
  let top2 := pos2.y - size2.height / 2
  let bottom2 := pos2.y + size2.height / 2
  decide (left1 < right2) && decide (right1 > left2) &&
    decide (top1 < bottom2) && decide (bottom1 > top2)

/-- `CollisionDetection.checkCollision(obj1, obj2)`. -/
def checkCollision (obj1 obj2 : GameObject) : Bool :=
  if !obj1.isActive || !obj2.isActive then
    false
  else
    checkAABBCollision obj1.position obj1.size obj2.position obj2.size

/-- Modelled from the spec's words (for the refinement claim C5):
two axis-aligned boxes, each centered on its entity's position with full
extents equal to the entity's size, strictly overlap on both axes;
boxes whose edges merely touch do not overlap. -/
def aabbOverlapSpec (a b : GameObject) : Prop :=
  (a.position.x - a.size.width / 2 < b.position.x + b.size.width / 2 ∧
    b.position.x - b.size.width / 2 < a.position.x + a.size.width / 2) ∧
  (a.position.y - a.size.height / 2 < b.position.y + b.size.height / 2 ∧
    b.position.y - b.size.height / 2 < a.position.y + a.size.height / 2)

instance (a b : GameObject) : Decidable (aabbOverlapSpec a b) := by
  unfold aabbOverlapSpec; infer_instance

/-- Claim C5: `checkCollision(a, b)` returns false whenever either entity
is inactive, and otherwise returns true if and only if the two AABBs
(centered on position, full extents equal to size) strictly overlap on
both axes; touching edges do not count as colliding. -/
theorem checkCollision_strict_aabb (a b : GameObject) :
    checkCollision a b = (a.isActive && b.isActive && decide (aabbOverlapSpec a b)) := by
  unfold checkCollision checkAABBCollision aabbOverlapSpec
  cases ha : a.isActive <;> cases hb : b.isActive <;> simp only [ha, hb]
  · simp
  · simp
  · simp
  · rw [if_neg (by simp), Bool.eq_iff_iff]
    simp only [Bool.and_eq_true, decide_eq_true_eq, gt_iff_lt, true_and]
    tauto

/-! ## PhysicsEngine.ts -/

/-- `PhysicsEngine.updateGameObject(obj, deltaTime)` on the kinematic
fields: integrates position from velocity and recomputes the heading as
`atan2(vy, vx) + π/2` whenever the velocity is non-zero.  Returns the new
(position, rotation). -/
def updateGameObjectKin (mm : MathModel) (dt : ℚ) (position velocity : Vec) (rot : ℚ) :
    Vec × ℚ :=
  let pos' : Vec := ⟨position.x + velocity.x * dt, position.y + velocity.y * dt⟩
  let rot' := if velocity.x ≠ 0 ∨ velocity.y ≠ 0 then mm.atan2 velocity.y velocity.x + mm.pi / 2
    else rot
  (pos', rot')

/-- `PhysicsEngine.constrainToScreen(obj)`: clamps the position into the
screen rectangle (x first, then y; each axis an if / else-if) and zeroes
the velocity component along a clamped axis.  Returns the new
(position, velocity). -/
def constrainToScreen (cfg : GameConfig) (size : Size) (position velocity : Vec) :
    Vec × Vec :=
  let halfWidth := size.width / 2
  let halfHeight := size.height / 2
  let xr :=
    if position.x - halfWidth < 0 then ((halfWidth, (0 : ℚ)) : ℚ × ℚ)
    else if position.x + halfWidth > cfg.screenWidth then (cfg.screenWidth - halfWidth, 0)
    else (position.x, velocity.x)
  let yr :=
    if position.y - halfHeight < 0 then ((halfHeight, (0 : ℚ)) : ℚ × ℚ)
    else if position.y + halfHeight > cfg.screenHeight then (cfg.screenHeight - halfHeight, 0)
    else (position.y, velocity.y)
  (⟨xr.1, yr.1⟩, ⟨xr.2, yr.2⟩)

/-- `PhysicsEngine.isOnScreen(obj)` with its 100-pixel margin. -/
def isOnScreen (cfg : GameConfig) (position : Vec) : Bool :=
  let margin : ℚ := 100
  decide (position.x > -margin) && decide (position.x < cfg.screenWidth + margin) &&
    decide (position.y > -margin) && decide (position.y < cfg.screenHeight + margin)

/-- The treatment of one player inside `PhysicsEngine.update`:
`updateGameObject` then `constrainToScreen`, only while active. -/
def physicsPlayerStep (mm : MathModel) (cfg : GameConfig) (ds : ℚ) (p : Player) : Player :=
  if p.isActive then
    let k := updateGameObjectKin mm ds p.position p.velocity p.rotation
    let c := constrainToScreen cfg p.size k.1 p.velocity
    { p with position := c.1, velocity := c.2, rotation := k.2 }
  else p

/-- `PhysicsEngine.findNearestPlayer(enemy, players)`: nearest active
player by Euclidean distance, the running minimum starting at Infinity
(modelled by `none`). -/
def findNearestPlayer (mm : MathModel) (e : Enemy) (players : List Player) : Option Player :=
  (players.foldl (fun acc player =>
    if player.isActive then
      let dx := player.position.x - e.position.x
      let dy := player.position.y - e.position.y
      let distance := mm.sqrt (dx * dx + dy * dy)
      match acc with
      | none => some (player, distance)
      | some best => if distance < best.2 then some (player, distance) else acc
    else acc) none).map Prod.fst

/-- The velocity override of `PhysicsEngine.updateEnemyBehavior`, per
attack pattern (the enemy-shooting part is modelled separately).  The
source `switch` leaves the velocity alone on `straight` and on any
unknown tag. -/
def enemyBehaviorVelocity (mm : MathModel) (now : ℚ) (e : Enemy) (players : List Player) :
    Vec :=
  if e.attackPattern = "zigzag" then ⟨mm.sin (now * 0.005) * 100, e.velocity.y⟩
  else if e.attackPattern = "circular" then
    let radius : ℚ := 50
    let speed : ℚ := 2
    let time := now * 0.001 * speed
    ⟨mm.cos time * radius, mm.sin time * radius + 50⟩
  else if e.attackPattern = "homing" then
    match findNearestPlayer mm e players with
    | some nearestPlayer =>
      let dx := nearestPlayer.position.x - e.position.x
      let dy := nearestPlayer.position.y - e.position.y
      let distance := mm.sqrt (dx * dx + dy * dy)
      if distance > 0 then
        let homingSpeed : ℚ := 100
        ⟨dx / distance * homingSpeed, dy / distance * homingSpeed⟩
      else e.velocity
    | none => e.velocity
  else e.velocity

/-- `PhysicsEngine.getEnemyShootInterval(enemyType)`. -/
def getEnemyShootInterval (enemyType : String) : ℚ :=
  if enemyType = "basic" then 2000
  else if enemyType = "fast" then 1500
  else if enemyType = "heavy" then 3000
  else if enemyType = "boss" then 1000
  else 2000

/-- `PhysicsEngine.createEnemyBullet(enemy)`.  The source object literal
carries no `isPlayerBullet` property (it is `undefined`, hence falsy),
modelled as `false`. -/
def createEnemyBullet (e : Enemy) : Bullet :=
  { id := "enemy_bullet"
    position := ⟨e.position.x, e.position.y + e.size.height / 2⟩
    velocity := ⟨0, 150⟩
    size := ⟨6, 12⟩
    rotation := 0
    health := 1
    maxHealth := 1
    isActive := true
    damage := 10
    ownerId := e.id
    bulletType := "enemyBasic"
    isPlayerBullet := false }

/-- `PhysicsEngine.handleEnemyShooting`.  JavaScript's
`if (!enemy.lastShotTime)` treats both a missing timestamp and a
timestamp of 0 as unset and stamps the current time. -/
def handleEnemyShooting (now : ℚ) (e : Enemy) : Enemy × Option Bullet :=
  let t := match e.lastShotTime with
    | none => now
    | some t0 => if t0 = 0 then now else t0
  if now - t > getEnemyShootInterval e.enemyType then
    ({ e with lastShotTime := some now }, some (createEnemyBullet e))
  else
    ({ e with lastShotTime := some t }, none)

/-- The treatment of one enemy inside `PhysicsEngine.update`:
`updateGameObject`, then `updateEnemyBehavior` (velocity override, then
self-fire), then the off-screen cull.  Returns the updated enemy and the
bullet it fired, if any. -/
def physicsEnemyStep (mm : MathModel) (cfg : GameConfig) (now ds : ℚ)
    (players : List Player) (e : Enemy) : Enemy × Option Bullet :=
  if e.isActive then
    let k := updateGameObjectKin mm ds e.position e.velocity e.rotation
    let e1 := { e with position := k.1, rotation := k.2 }
    let e2 := { e1 with velocity := enemyBehaviorVelocity mm now e1 players }
    let r := handleEnemyShooting now e2
    let e4 := if isOnScreen cfg r.1.position then r.1 else { r.1 with isActive := false }
    (e4, r.2)
  else (e, none)

/-- The treatment of one bullet inside `PhysicsEngine.update`:
`updateGameObject` then the off-screen cull. -/
def physicsBulletStep (mm : MathModel) (cfg : GameConfig) (ds : ℚ) (b : Bullet) : Bullet :=
  if b.isActive then
    let k := updateGameObjectKin mm ds b.position b.velocity b.rotation
    let b1 := { b with position := k.1, rotation := k.2 }
    if isOnScreen cfg b1.position then b1 else { b1 with isActive := false }
  else b

/-- The treatment of one power-up inside `PhysicsEngine.update`:
`updateGameObject`, then the wall-clock sinusoidal bob on y, then the
off-screen cull. -/
def physicsPowerUpStep (mm : MathModel) (cfg : GameConfig) (now ds : ℚ) (pu : PowerUp) :
    PowerUp :=
  if pu.isActive then
    let k := updateGameObjectKin mm ds pu.position pu.velocity pu.rotation
    let pos2 : Vec := ⟨k.1.x, k.1.y + mm.sin (now * 0.005) * 0.5⟩
    let pu1 := { pu with position := pos2, rotation := k.2 }
    if isOnScreen cfg pu1.position then pu1 else { pu1 with isActive := false }
  else pu

/-- `PhysicsEngine.update(gameState, deltaTime)`.  The player pass runs
first, so the enemy pass (behavior, homing) sees the already-updated
players; the enemy pass pushes freshly fired enemy bullets into
`gameState.bullets` before the bullet pass starts, so those bullets are
integrated in the same tick (a JavaScript `forEach` iterates the array
as it stands when the pass begins). -/
def physicsUpdate (mm : MathModel) (cfg : GameConfig) (now : ℚ) (st : GameState)
    (deltaTime : ℚ) : GameState :=
  let deltaSeconds := deltaTime / 1000
  let players' := st.players.map (physicsPlayerStep mm cfg deltaSeconds)
  let enemyResults := st.enemies.map (physicsEnemyStep mm cfg now deltaSeconds players')
  let enemies' := enemyResults.map Prod.fst
  let newBullets := enemyResults.filterMap Prod.snd
  let bullets' := (st.bullets ++ newBullets).map (physicsBulletStep mm cfg deltaSeconds)
  let powerUps' := st.powerUps.map (physicsPowerUpStep mm cfg now deltaSeconds)
  { st with players := players', enemies := enemies', bullets := bullets',
            powerUps := powerUps' }

/-! ### Physics lemmas -/

theorem updateGameObjectKin_dt0_pos (mm : MathModel) (position velocity : Vec) (rot : ℚ) :
    (updateGameObjectKin mm 0 position velocity rot).1 = position := by
  cases position
  simp [updateGameObjectKin]

theorem updateGameObjectKin_zero_vel_rot (mm : MathModel) (dt : ℚ) (position : Vec)
    (rot : ℚ) : (updateGameObjectKin mm dt position (⟨0, 0⟩ : Vec) rot).2 = rot := by
  simp [updateGameObjectKin]

theorem handleEnemyShooting_fst_pos (now : ℚ) (e : Enemy) :
    ((handleEnemyShooting now e).1).position = e.position := by
  dsimp only [handleEnemyShooting]
  split <;> rfl

theorem handleEnemyShooting_fst_rot (now : ℚ) (e : Enemy) :
    ((handleEnemyShooting now e).1).rotation = e.rotation := by
  dsimp only [handleEnemyShooting]
  split <;> rfl

theorem physicsPlayerStep_dt0_pos (mm : MathModel) (cfg : GameConfig) (p : Player) :
    (physicsPlayerStep mm cfg 0 p).position =
      if p.isActive then (constrainToScreen cfg p.size p.position p.velocity).1
      else p.position := by
  cases hp : p.isActive <;>
    simp [physicsPlayerStep, hp, updateGameObjectKin_dt0_pos]

theorem physicsEnemyStep_dt0_pos (mm : MathModel) (cfg : GameConfig) (now : ℚ)
    (players : List Player) (e : Enemy) :
    ((physicsEnemyStep mm cfg now 0 players e).1).position = e.position := by
  cases he : e.isActive
  · simp [physicsEnemyStep, he]
  · simp only [physicsEnemyStep, he, if_true]
    split
    · exact (handleEnemyShooting_fst_pos _ _).trans
        (by simp [updateGameObjectKin_dt0_pos])
    · exact (handleEnemyShooting_fst_pos _ _).trans
        (by simp [updateGameObjectKin_dt0_pos])

theorem physicsBulletStep_dt0_pos (mm : MathModel) (cfg : GameConfig) (b : Bullet) :
    (physicsBulletStep mm cfg 0 b).position = b.position := by
  cases hb : b.isActive
  · simp [physicsBulletStep, hb]
  · simp only [physicsBulletStep, hb, if_true]
    split <;> simp [updateGameObjectKin_dt0_pos]

theorem physicsPowerUpStep_dt0_pos (mm : MathModel) (cfg : GameConfig) (now : ℚ)
    (pu : PowerUp) :
    (physicsPowerUpStep mm cfg now 0 pu).position =
      if pu.isActive
      then (⟨pu.position.x, pu.position.y + mm.sin (now * 0.005) * 0.5⟩ : Vec)
      else pu.position := by
  cases hp : pu.isActive
  · simp [physicsPowerUpStep, hp]
  · simp only [physicsPowerUpStep, hp, if_true]
    split <;> simp [updateGameObjectKin_dt0_pos]

theorem physicsPlayerStep_zero_vel_rot (mm : MathModel) (cfg : GameConfig) (ds : ℚ)
    (p : Player) (hv : p.velocity = (⟨0, 0⟩ : Vec)) :
    (physicsPlayerStep mm cfg ds p).rotation = p.rotation := by
  cases hp : p.isActive <;>
    simp [physicsPlayerStep, hp, hv, updateGameObjectKin_zero_vel_rot]

theorem physicsEnemyStep_zero_vel_rot (mm : MathModel) (cfg : GameConfig) (now ds : ℚ)
    (players : List Player) (e : Enemy) (hv : e.velocity = (⟨0, 0⟩ : Vec)) :
    ((physicsEnemyStep mm cfg now ds players e).1).rotation = e.rotation := by
  cases he : e.isActive
  · simp [physicsEnemyStep, he]
  · simp only [physicsEnemyStep, he, if_true]
    split
    · exact (handleEnemyShooting_fst_rot _ _).trans
        (by simp [hv, updateGameObjectKin_zero_vel_rot])
    · exact (handleEnemyShooting_fst_rot _ _).trans
        (by simp [hv, updateGameObjectKin_zero_vel_rot])

theorem physicsBulletStep_zero_vel_rot (mm : MathModel) (cfg : GameConfig) (ds : ℚ)
    (b : Bullet) (hv : b.velocity = (⟨0, 0⟩ : Vec)) :
    (physicsBulletStep mm cfg ds b).rotation = b.rotation := by
  cases hb : b.isActive
  · simp [physicsBulletStep, hb]
  · simp only [physicsBulletStep, hb, if_true]
    split <;> simp [hv, updateGameObjectKin_zero_vel_rot]

theorem physicsPowerUpStep_zero_vel_rot (mm : MathModel) (cfg : GameConfig) (now ds : ℚ)
    (pu : PowerUp) (hv : pu.velocity = (⟨0, 0⟩ : Vec)) :
    (physicsPowerUpStep mm cfg now ds pu).rotation = pu.rotation := by
  cases hp : pu.isActive
  · simp [physicsPowerUpStep, hp]
  · simp only [physicsPowerUpStep, hp, if_true]
    split <;> simp [hv, updateGameObjectKin_zero_vel_rot]

/-! ### Concrete instances used by counterexamples and witnesses -/

/-- An all-zero instance of the abstract Math primitives.  It is used
only on inputs where the embedded code never consults a primitive
(zero velocities, no enemies, no power-ups), so any instance gives the
exact behaviour of the source there. -/
def mmZero : MathModel :=
  { sin := fun _ => 0, cos := fun _ => 0, sqrt := fun _ => 0,
    atan2 := fun _ _ => 0, pi := 0 }

/-- An 800×600 game configuration. -/
def cfg800 : GameConfig :=
  { screenWidth := 800, screenHeight := 600, playerSpeed := 200, bulletSpeed := 500,
    enemySpeed := 100, spawnRate := 1, difficulty := "medium" }

/-- An empty playing state. -/
def stEmpty : GameState :=
  { players := [], enemies := [], bullets := [], powerUps := [], explosions := [],
    score := 0, level := 1, wave := 1, enemiesKilled := 0, powerUpsCollected := 0,
    accuracy := 0, gameStatus := "playing", isPaused := false, timeElapsed := 0,
    isMultiplayer := false }

/-- A zero-velocity active player standing 10 pixels off the left screen
edge. -/
def playerOffLeft : Player :=
  { id := "p1", position := ⟨-10, 100⟩, velocity := ⟨0, 0⟩, size := ⟨30, 30⟩,
    rotation := 0, health := 100, maxHealth := 100, isActive := true,
    playerId := "p1", playerName := "P1", score := 0, lives := 3,
    weaponType := "basic", powerUps := [], isLocalPlayer := true }

/-- Claim C2 counterexample: with `deltaTime = 0`, `PhysicsEngine.update`
does not leave every position unchanged — the screen clamp of
`constrainToScreen` still fires, moving an active out-of-bounds player
(here from x = -10 to x = 15).  On this input the code consults no
transcendental primitive, so the all-zero `MathModel` is exact. -/
theorem physicsUpdate_dt0_moves_player :
    ((physicsUpdate mmZero cfg800 0 { stEmpty with players := [playerOffLeft] } 0).players.map
        fun p => p.position) ≠
      [playerOffLeft].map fun p => p.position := by
  have h : ((physicsUpdate mmZero cfg800 0 { stEmpty with players := [playerOffLeft] } 0).players.map
      fun p => p.position) = [(⟨15, 100⟩ : Vec)] := by
    norm_num [physicsUpdate, physicsPlayerStep, updateGameObjectKin, constrainToScreen,
      isOnScreen, playerOffLeft, cfg800, stEmpty, mmZero]
  rw [h]
  simp only [List.map, playerOffLeft, ne_eq, List.cons.injEq, Vec.mk.injEq]
  norm_num

/-- Claim C2 (amended): with `deltaTime = 0`, `PhysicsEngine.update`
leaves the position of every enemy and of every pre-existing bullet
unchanged; an active player's position becomes the screen clamp of its
old position (hence is unchanged whenever it already lies inside the
playfield) while an inactive player's is untouched; an active power-up
keeps its x but its y still receives the wall-clock sinusoidal bob; and
every player, enemy, pre-existing bullet or power-up whose velocity is
zero keeps its rotation. -/
theorem physicsUpdate_dt0_effect (mm : MathModel) (cfg : GameConfig) (now : ℚ)
    (st : GameState) :
    ((physicsUpdate mm cfg now st 0).enemies.map fun e => e.position) =
      (st.enemies.map fun e => e.position) ∧
    (((physicsUpdate mm cfg now st 0).bullets.take st.bullets.length).map
        fun b => b.position) =
      (st.bullets.map fun b => b.position) ∧
    ((physicsUpdate mm cfg now st 0).players.map fun p => p.position) =
      (st.players.map fun p =>
        if p.isActive then (constrainToScreen cfg p.size p.position p.velocity).1
        else p.position) ∧
    ((physicsUpdate mm cfg now st 0).powerUps.map fun pu => pu.position) =
      (st.powerUps.map fun pu =>
        if pu.isActive
        then (⟨pu.position.x, pu.position.y + mm.sin (now * 0.005) * 0.5⟩ : Vec)
        else pu.position) ∧
    (∀ (i : ℕ) (p q : Player), st.players[i]? = some p →
      (physicsUpdate mm cfg now st 0).players[i]? = some q →
      p.velocity = (⟨0, 0⟩ : Vec) → q.rotation = p.rotation) ∧
    (∀ (i : ℕ) (e f : Enemy), st.enemies[i]? = some e →
      (physicsUpdate mm cfg now st 0).enemies[i]? = some f →
      e.velocity = (⟨0, 0⟩ : Vec) → f.rotation = e.rotation) ∧
    (∀ (i : ℕ) (b c : Bullet), st.bullets[i]? = some b →
      ((physicsUpdate mm cfg now st 0).bullets.take st.bullets.length)[i]? = some c →
      b.velocity = (⟨0, 0⟩ : Vec) → c.rotation = b.rotation) ∧
    (∀ (i : ℕ) (u w : PowerUp), st.powerUps[i]? = some u →
      (physicsUpdate mm cfg now st 0).powerUps[i]? = some w →
      u.velocity = (⟨0, 0⟩ : Vec) → w.rotation = u.rotation) := by
  simp only [physicsUpdate, zero_div]
  refine ⟨?_, ?_, ?_, ?_, ?_, ?_, ?_, ?_⟩
  · rw [List.map_map, List.map_map]
    apply List.map_congr_left
    intro e _
    exact physicsEnemyStep_dt0_pos mm cfg now _ e
  · rw [List.map_append, List.take_left' (List.length_map _ _), List.map_map]
    apply List.map_congr_left
    intro b _
    exact physicsBulletStep_dt0_pos mm cfg b
  · rw [List.map_map]
    apply List.map_congr_left
    intro p _
    exact physicsPlayerStep_dt0_pos mm cfg p
  · rw [List.map_map]
    apply List.map_congr_left
    intro pu _
    exact physicsPowerUpStep_dt0_pos mm cfg now pu
  · intro i p q hp hq hv
    rw [List.getElem?_map, hp] at hq
    simp only [Option.map_some', Option.some.injEq] at hq
    rw [← hq]
    exact physicsPlayerStep_zero_vel_rot mm cfg _ p hv
  · intro i e f he hf hv
    rw [List.map_map, List.getElem?_map, he] at hf
    simp only [Option.map_some', Option.some.injEq] at hf
    rw [← hf]
    exact physicsEnemyStep_zero_vel_rot mm cfg now _ _ e hv
  · intro i b c hb hc hv
    rw [List.map_append, List.take_left' (List.length_map _ _), List.getElem?_map, hb] at hc
    simp only [Option.map_some', Option.some.injEq] at hc
    rw [← hc]
    exact physicsBulletStep_zero_vel_rot mm cfg _ b hv
  · intro i u w hu hw hv
    rw [List.getElem?_map, hu] at hw
    simp only [Option.map_some', Option.some.injEq] at hw
    rw [← hw]
    exact physicsPowerUpStep_zero_vel_rot mm cfg now _ u hv

/-- Witness for the amended claim C2, at a concrete state: the
rotation-preservation conjunct applied to a zero-velocity player. -/
theorem physicsUpdate_dt0_effect_witness :
    (physicsPlayerStep mmZero cfg800 0 playerOffLeft).rotation = playerOffLeft.rotation :=
  (physicsUpdate_dt0_effect mmZero cfg800 7
        { stEmpty with players := [playerOffLeft] }).2.2.2.2.1 0 playerOffLeft
    (physicsPlayerStep mmZero cfg800 0 playerOffLeft) rfl
    (by simp [physicsUpdate, zero_div]) rfl

/-- Claim C7 (amended): after `PhysicsEngine.update`, every active player
whose size fits on the screen (`width ≤ screenWidth`,
`height ≤ screenHeight`) has its position inside the rectangle
`[halfWidth, screenWidth - halfWidth] × [halfHeight, screenHeight - halfHeight]`,
and whenever the position on an axis differs from the plain integration
result — i.e. the clamp fired on that axis — the velocity component
along that axis is zero. -/
theorem physicsUpdate_player_containment (mm : MathModel) (cfg : GameConfig) (now : ℚ)
    (st : GameState) (dt : ℚ) (i : ℕ) (p q : Player)
    (hp : st.players[i]? = some p)
    (hq : (physicsUpdate mm cfg now st dt).players[i]? = some q)
    (hA : p.isActive = true)
    (hw : p.size.width ≤ cfg.screenWidth)
    (hh : p.size.height ≤ cfg.screenHeight) :
    (p.size.width / 2 ≤ q.position.x ∧
      q.position.x ≤ cfg.screenWidth - p.size.width / 2 ∧
      p.size.height / 2 ≤ q.position.y ∧
      q.position.y ≤ cfg.screenHeight - p.size.height / 2) ∧
    (q.position.x ≠ p.position.x + p.velocity.x * (dt / 1000) → q.velocity.x = 0) ∧
    (q.position.y ≠ p.position.y + p.velocity.y * (dt / 1000) → q.velocity.y = 0) := by
  simp only [physicsUpdate] at hq
  rw [List.getElem?_map, hp] at hq
  simp only [Option.map_some', Option.some.injEq] at hq
  rw [← hq]
  simp only [physicsPlayerStep, hA, if_true, updateGameObjectKin, constrainToScreen]
  split_ifs <;>
    refine ⟨⟨?_, ?_, ?_, ?_⟩, fun hne => ?_, fun hne => ?_⟩ <;>
    first
      | rfl
      | exact absurd rfl hne
      | linarith

/-- A zero-velocity active player wider than the whole screen. -/
def playerTooWide : Player :=
  { id := "p2", position := ⟨0, 300⟩, velocity := ⟨0, 0⟩, size := ⟨2000, 30⟩,
    rotation := 0, health := 100, maxHealth := 100, isActive := true,
    playerId := "p2", playerName := "P2", score := 0, lives := 3,
    weaponType := "basic", powerUps := [], isLocalPlayer := true }

/-- Claim C7 counterexample: for a player wider than the screen the
containment rectangle is violated after `PhysicsEngine.update` — the
clamp snaps x to halfWidth = 1000, which exceeds
screenWidth - halfWidth = -200, while the player stays active. -/
theorem physicsUpdate_containment_fails :
    ((physicsUpdate mmZero cfg800 0 { stEmpty with players := [playerTooWide] } 0).players.map
        fun p => p.position.x) = [1000] ∧
    ((physicsUpdate mmZero cfg800 0 { stEmpty with players := [playerTooWide] } 0).players.map
        fun p => p.isActive) = [true] ∧
    ¬ ((1000 : ℚ) ≤ cfg800.screenWidth - playerTooWide.size.width / 2) := by
  refine ⟨?_, ?_, ?_⟩
  · norm_num [physicsUpdate, physicsPlayerStep, updateGameObjectKin, constrainToScreen,
      isOnScreen, playerTooWide, cfg800, stEmpty, mmZero]
  · norm_num [physicsUpdate, physicsPlayerStep, updateGameObjectKin, constrainToScreen,
      isOnScreen, playerTooWide, cfg800, stEmpty, mmZero]
  · norm_num [cfg800, playerTooWide]

/-- A well-sized active player at mid-screen. -/
def playerMid : Player :=
  { id := "p3", position := ⟨400, 300⟩, velocity := ⟨0, 0⟩, size := ⟨30, 30⟩,
    rotation := 0, health := 100, maxHealth := 100, isActive := true,
    playerId := "p3", playerName := "P3", score := 0, lives := 3,
    weaponType := "basic", powerUps := [], isLocalPlayer := true }

/-- Witness for the amended claim C7 at a concrete mid-screen player. -/
theorem physicsUpdate_player_containment_witness :
    (playerMid.size.width / 2 ≤
        (physicsPlayerStep mmZero cfg800 (0 / 1000) playerMid).position.x ∧
      (physicsPlayerStep mmZero cfg800 (0 / 1000) playerMid).position.x ≤
        cfg800.screenWidth - playerMid.size.width / 2 ∧
      playerMid.size.height / 2 ≤
        (physicsPlayerStep mmZero cfg800 (0 / 1000) playerMid).position.y ∧
      (physicsPlayerStep mmZero cfg800 (0 / 1000) playerMid).position.y ≤
        cfg800.screenHeight - playerMid.size.height / 2) ∧
    ((physicsPlayerStep mmZero cfg800 (0 / 1000) playerMid).position.x ≠
        playerMid.position.x + playerMid.velocity.x * (0 / 1000) →
      (physicsPlayerStep mmZero cfg800 (0 / 1000) playerMid).velocity.x = 0) ∧
    ((physicsPlayerStep mmZero cfg800 (0 / 1000) playerMid).position.y ≠
        playerMid.position.y + playerMid.velocity.y * (0 / 1000) →
      (physicsPlayerStep mmZero cfg800 (0 / 1000) playerMid).velocity.y = 0) :=
  physicsUpdate_player_containment mmZero cfg800 0
    { stEmpty with players := [playerMid] } 0 0 playerMid
    (physicsPlayerStep mmZero cfg800 (0 / 1000) playerMid) rfl rfl rfl
    (by norm_num [playerMid, cfg800]) (by norm_num [playerMid, cfg800])

/-! ## EnemySpawner.ts -/

/-- The `EnemySpawner` instance state (its `config` is passed to the
functions below explicitly). -/
structure EnemySpawner where
  lastSpawnTime : ℚ
  spawnInterval : ℚ
  waveNumber : ℕ
  enemiesInCurrentWave : ℕ
  maxEnemiesPerWave : ℕ
  timeBetweenWaves : ℚ
  lastWaveTime : ℚ
  bossSpawned : Bool
deriving DecidableEq

/-- The spawner state right after its constructor runs at time `t0`
(`lastSpawnTime` and `lastWaveTime` are stamped with `Date.now()`). -/
def EnemySpawner.init (t0 : ℚ) : EnemySpawner :=
  { lastSpawnTime := t0, spawnInterval := 2000, waveNumber := 1,
    enemiesInCurrentWave := 0, maxEnemiesPerWave := 5,
    timeBetweenWaves := 5000, lastWaveTime := t0, bossSpawned := false }

/-- The `Math.random()` draws consumed by one `EnemySpawner.update` call:
the enemy-type pick, the attack-pattern draw, the spawn-x draw. -/
structure SpawnRand where
  randType : ℚ
  randPattern : ℚ
  randX : ℚ
deriving DecidableEq

/-- `EnemySpawner.shouldStartNewWave(gameState, currentTime)`. -/
def shouldStartNewWave (s : EnemySpawner) (gameState : GameState) (currentTime : ℚ) :
    Bool :=
  let activeEnemies := (gameState.enemies.filter fun e => e.isActive).length
  let timeSinceLastWave := currentTime - s.lastWaveTime
  activeEnemies == 0 && decide (timeSinceLastWave > s.timeBetweenWaves) &&
    decide (s.enemiesInCurrentWave ≥ s.maxEnemiesPerWave)

/-- `EnemySpawner.scaleDifficulty()`. -/
def scaleDifficulty (s : EnemySpawner) : EnemySpawner :=
  { s with spawnInterval := max 500 (s.spawnInterval * 0.9),
           maxEnemiesPerWave := min 15 (s.maxEnemiesPerWave + 1),
           timeBetweenWaves := max 2000 (s.timeBetweenWaves * 0.95) }

/-- `EnemySpawner.startNewWave()` (its `Date.now()` read is `now`). -/
def startNewWave (s : EnemySpawner) (now : ℚ) : EnemySpawner :=
  scaleDifficulty
    { s with waveNumber := s.waveNumber + 1, enemiesInCurrentWave := 0,
             lastWaveTime := now, bossSpawned := false }

/-- `EnemySpawner.shouldSpawnBoss(gameState)` (the `gameState` argument
is unread in the source body). -/
def shouldSpawnBoss (s : EnemySpawner) : Bool :=
  s.waveNumber % 5 == 0 && !s.bossSpawned &&
    decide ((s.enemiesInCurrentWave : ℚ) ≥ (s.maxEnemiesPerWave : ℚ) * 0.8)

/-- `EnemySpawner.shouldSpawnEnemy(currentTime)`. -/
def shouldSpawnEnemy (s : EnemySpawner) (currentTime : ℚ) : Bool :=
  decide (currentTime - s.lastSpawnTime > s.spawnInterval)

/-- `EnemySpawner.getAvailableEnemyTypes()`. -/
def getAvailableEnemyTypes (s : EnemySpawner) : List String :=
  ["basic"] ++ (if s.waveNumber ≥ 2 then ["fast"] else []) ++
    (if s.waveNumber ≥ 3 then ["heavy"] else [])

/-- The record shape returned by `EnemySpawner.getEnemyStats`. -/
structure EnemyStats where
  health : ℚ
  damage : ℚ
  speed : ℚ
  points : ℚ
  size : Size
deriving DecidableEq

/-- `EnemySpawner.getEnemyStats(type)`. -/
def getEnemyStats (s : EnemySpawner) (enemyType : String) : EnemyStats :=
  let difficultyMultiplier : ℚ := 1 + ((s.waveNumber : ℚ) - 1) * 0.1
  if enemyType = "basic" then
    { health := ((⌊10 * difficultyMultiplier⌋ : ℤ) : ℚ),
      damage := ((⌊10 * difficultyMultiplier⌋ : ℤ) : ℚ),
      speed := 80 + (s.waveNumber : ℚ) * 5, points := 100, size := ⟨30, 30⟩ }
  else if enemyType = "fast" then
    { health := ((⌊5 * difficultyMultiplier⌋ : ℤ) : ℚ),
      damage := ((⌊8 * difficultyMultiplier⌋ : ℤ) : ℚ),
      speed := 150 + (s.waveNumber : ℚ) * 8, points := 150, size := ⟨25, 25⟩ }
  else if enemyType = "heavy" then
    { health := ((⌊25 * difficultyMultiplier⌋ : ℤ) : ℚ),
      damage := ((⌊20 * difficultyMultiplier⌋ : ℤ) : ℚ),
      speed := 50 + (s.waveNumber : ℚ) * 3, points := 300, size := ⟨40, 40⟩ }
  else
    { health := ((⌊10 * difficultyMultiplier⌋ : ℤ) : ℚ),
      damage := ((⌊10 * difficultyMultiplier⌋ : ℤ) : ℚ),
      speed := 80, points := 100, size := ⟨30, 30⟩ }

/-- The record shape returned by `EnemySpawner.getBossStats` (it has no
speed field; the boss velocity is fixed in `createBoss`). -/
structure BossStats where
  health : ℚ
  damage : ℚ
  points : ℚ
  size : Size
deriving DecidableEq

/-- `EnemySpawner.getBossStats()`.  `Math.floor(waveNumber / 5)` is the
natural-number division of the wave counter. -/
def getBossStats (s : EnemySpawner) : BossStats :=
  let difficultyMultiplier : ℚ := 1 + ((s.waveNumber : ℚ) - 1) * 0.15
  { health := ((⌊200 * difficultyMultiplier⌋ : ℤ) : ℚ),
    damage := ((⌊30 * difficultyMultiplier⌋ : ℤ) : ℚ),
    points := 1000 * ((s.waveNumber / 5 : ℕ) : ℚ),
    size := ⟨80, 80⟩ }

/-- `EnemySpawner.getRandomAttackPattern(type)` with its random draw
made explicit (the `fast` arm indexes a two-element array by
`Math.floor(random * 2)`). -/
def getRandomAttackPattern (randPattern : ℚ) (enemyType : String) : String :=
  if enemyType = "basic" then (if randPattern < 0.7 then "straight" else "zigzag")
  else if enemyType = "fast" then
    (["straight", "zigzag"].getD (⌊randPattern * 2⌋).toNat "straight")
  else if enemyType = "heavy" then (if randPattern < 0.5 then "straight" else "homing")
  else if enemyType = "boss" then "circular"
  else "straight"

/-- `EnemySpawner.createEnemy(type)` (spawn position from
`getRandomSpawnPosition` with its draw explicit). -/
def createEnemy (cfg : GameConfig) (s : EnemySpawner) (r : SpawnRand)
    (enemyType : String) : Enemy :=
  let position : Vec := ⟨r.randX * (cfg.screenWidth - 60) + 30, -30⟩
  let baseStats := getEnemyStats s enemyType
  { id := "enemy", position := position, velocity := ⟨0, baseStats.speed⟩,
    size := baseStats.size, rotation := 0, health := baseStats.health,
    maxHealth := baseStats.health, isActive := true, enemyType := enemyType,
    damage := baseStats.damage, points := baseStats.points,
    attackPattern := getRandomAttackPattern r.randPattern enemyType,
    lastShotTime := none }

/-- `EnemySpawner.createRandomEnemy()`: uniform pick among the unlocked
types by `Math.floor(random * length)`. -/
def createRandomEnemy (cfg : GameConfig) (s : EnemySpawner) (r : SpawnRand) : Enemy :=
  let enemyTypes := getAvailableEnemyTypes s
  let randomType := enemyTypes.getD (⌊r.randType * (enemyTypes.length : ℚ)⌋).toNat "basic"
  createEnemy cfg s r randomType

/-- `EnemySpawner.createBoss()`. -/
def createBoss (cfg : GameConfig) (s : EnemySpawner) : Enemy :=
  let position : Vec := ⟨cfg.screenWidth / 2, -50⟩
  let bossStats := getBossStats s
  { id := "boss", position := position, velocity := ⟨0, 30⟩, size := bossStats.size,
    rotation := 0, health := bossStats.health, maxHealth := bossStats.health,
    isActive := true, enemyType := "boss", damage := bossStats.damage,
    points := bossStats.points, attackPattern := "circular", lastShotTime := none }

/-- The wave-check stage at the top of `EnemySpawner.update`. -/
def waveStage (s : EnemySpawner) (gameState : GameState) (currentTime : ℚ) :
    EnemySpawner :=
  if shouldStartNewWave s gameState currentTime then startNewWave s currentTime else s

/-- `EnemySpawner.update(gameState, deltaTime)`: wave check, then boss
check, then regular spawning.  Returns the updated spawner and the
created enemies in push order. -/
def spawnerUpdate (cfg : GameConfig) (s : EnemySpawner) (gameState : GameState)
    (currentTime : ℚ) (r : SpawnRand) : EnemySpawner × List Enemy :=
  let s1 := waveStage s gameState currentTime
  let bossResult :=
    if shouldSpawnBoss s1 then ({ s1 with bossSpawned := true }, [createBoss cfg s1])
    else (s1, [])
  let s2 := bossResult.1
  if shouldSpawnEnemy s2 currentTime &&
      decide (s2.enemiesInCurrentWave < s2.maxEnemiesPerWave) then
    ({ s2 with enemiesInCurrentWave := s2.enemiesInCurrentWave + 1,
               lastSpawnTime := currentTime },
      bossResult.2 ++ [createRandomEnemy cfg s2 r])
  else (s2, bossResult.2)

/-! ## PowerUpSpawner.ts -/

/-- The `PowerUpSpawner` instance state. -/
structure PowerUpSpawner where
  lastSpawnTime : ℚ
  spawnInterval : ℚ
  spawnChance : ℚ
deriving DecidableEq

/-- The spawner state right after its constructor runs at time `t0`. -/
def PowerUpSpawner.init (t0 : ℚ) : PowerUpSpawner :=
  { lastSpawnTime := t0, spawnInterval := 15000, spawnChance := 0.3 }

/-- The `Math.random()` draws consumed by one `PowerUpSpawner.update`:
the spawn-chance draw, the type pick, the spawn-x draw. -/
structure PowerRand where
  randSpawn : ℚ
  randType : ℚ
  randX : ℚ
deriving DecidableEq

/-- The record shape returned by `PowerUpSpawner.getPowerUpStats`. -/
structure PowerUpStats where
  size : Size
  duration : ℚ
  effect : PowerUpEffect
deriving DecidableEq

/-- `PowerUpSpawner.getPowerUpStats(type)`. -/
def getPowerUpStats (powerUpType : String) : PowerUpStats :=
  if powerUpType = "health" then
    { size := ⟨25, 25⟩, duration := 0,
      effect := { effectType := "health", value := 50, duration := 0 } }
  else if powerUpType = "weaponUpgrade" then
    { size := ⟨30, 30⟩, duration := 10000,
      effect := { effectType := "weaponUpgrade", value := 1, duration := 10000 } }
  else if powerUpType = "shield" then
    { size := ⟨28, 28⟩, duration := 8000,
      effect := { effectType := "shield", value := 100, duration := 8000 } }
  else if powerUpType = "speedBoost" then
    { size := ⟨26, 26⟩, duration := 6000,
      effect := { effectType := "speedBoost", value := 1.5, duration := 6000 } }
  else if powerUpType = "scoreMultiplier" then
    { size := ⟨32, 32⟩, duration := 12000,
      effect := { effectType := "scoreMultiplier", value := 2, duration := 12000 } }
  else
    { size := ⟨25, 25⟩, duration := 0,
      effect := { effectType := "health", value := 25, duration := 0 } }

/-- `PowerUpSpawner.createPowerUp(type)`. -/
def createPowerUp (cfg : GameConfig) (r : PowerRand) (powerUpType : String) : PowerUp :=
  let position : Vec := ⟨r.randX * (cfg.screenWidth - 60) + 30, -30⟩
  let stats := getPowerUpStats powerUpType
  { id := "powerup", position := position, velocity := ⟨0, 50⟩, size := stats.size,
    rotation := 0, health := 1, maxHealth := 1, isActive := true,
    powerUpType := powerUpType, duration := stats.duration, effect := stats.effect }

/-- `PowerUpSpawner.createRandomPowerUp()`. -/
def createRandomPowerUp (cfg : GameConfig) (r : PowerRand) : PowerUp :=
  let powerUpTypes := ["health", "weaponUpgrade", "shield", "speedBoost", "scoreMultiplier"]
  let randomType := powerUpTypes.getD (⌊r.randType * (powerUpTypes.length : ℚ)⌋).toNat "health"
  createPowerUp cfg r randomType

/-- `PowerUpSpawner.shouldSpawnPowerUp(currentTime, gameState)`. -/
def shouldSpawnPowerUp (ps : PowerUpSpawner) (currentTime : ℚ) (gameState : GameState)
    (randSpawn : ℚ) : Bool :=
  if currentTime - ps.lastSpawnTime < ps.spawnInterval then false
  else if (gameState.powerUps.filter fun p => p.isActive).length ≥ 3 then false
  else decide (randSpawn < ps.spawnChance)

/-- `PowerUpSpawner.update(gameState, deltaTime)`. -/
def powerUpSpawnerUpdate (cfg : GameConfig) (ps : PowerUpSpawner) (gameState : GameState)
    (currentTime : ℚ) (r : PowerRand) : PowerUpSpawner × List PowerUp :=
  if shouldSpawnPowerUp ps currentTime gameState r.randSpawn then
    ({ ps with lastSpawnTime := currentTime }, [createRandomPowerUp cfg r])
  else (ps, [])

/-! ## GameEngine.ts -/

/-- `GameEngine.createBullet(position, velocity, ownerId, bulletType)`.
`isPlayerBullet` compares `ownerId` against each player's `id` field
(not `playerId`), exactly as the source does. -/
def createBullet (players : List Player) (position velocity : Vec) (ownerId : String)
    (bulletType : String) : Bullet :=
  { id := "bullet", position := position, velocity := velocity, size := ⟨4, 10⟩,
    rotation := 0, health := 1, maxHealth := 1, isActive := true, damage := 10,
    ownerId := ownerId, bulletType := bulletType,
    isPlayerBullet := players.any fun player => player.id == ownerId }

/-- `GameEngine.createPlayerBullets(player)`: the `switch` covers only
`basic` and `spreadShot`; every other weapon variant yields no bullet. -/
def createPlayerBullets (cfg : GameConfig) (players : List Player) (player : Player) :
    List Bullet :=
  let basePosition : Vec := ⟨player.position.x, player.position.y - player.size.height / 2⟩
  if player.weaponType = "basic" then
    [createBullet players basePosition ⟨0, -cfg.bulletSpeed⟩ player.playerId "playerBasic"]
  else if player.weaponType = "spreadShot" then
    ([-1, 0, 1] : List ℚ).map fun i =>
      createBullet players ⟨basePosition.x + i * 10, basePosition.y⟩
        ⟨i * 50, -cfg.bulletSpeed⟩ player.playerId "playerBasic"
  else []

/-- `GameEngine.playerShoot(playerId)` (the audio cue is an external
side effect outside the embedded state). -/
def playerShoot (cfg : GameConfig) (st : GameState) (playerId : String) : GameState :=
  match st.players.find? (fun p => p.playerId == playerId) with
  | some player =>
      if st.gameStatus = "playing" then
        { st with bullets := st.bullets ++ createPlayerBullets cfg st.players player }
      else st
  | none => st

/-- Mutation of the first player matching `playerId`, as
`Array.prototype.find` + in-place assignment does. -/
def setFirstPlayerPosition : List Player → String → Vec → List Player
  | [], _, _ => []
  | p :: rest, playerId, position =>
    if p.playerId == playerId then { p with position := position } :: rest
    else p :: setFirstPlayerPosition rest playerId position

/-- `GameEngine.updatePlayerPosition(playerId, position)`. -/
def updatePlayerPosition (st : GameState) (playerId : String) (position : Vec) :
    GameState :=
  { st with players := setFirstPlayerPosition st.players playerId position }

/-- `GameEngine.createExplosion(position, size)` (id stamp opaque). -/
def createExplosion (position : Vec) (size : ℚ) : Explosion :=
  { id := "explosion", position := position, size := ⟨size, size⟩,
    duration := 500, currentFrame := 0, animationProgress := 0 }

/-- `GameEngine.handlePlayerEnemyCollision(player, enemy)`: returns the
mutated player and enemy and the explosion appended to the state. -/
def handlePlayerEnemyCollision (player : Player) (enemy : Enemy) :
    Player × Enemy × Explosion :=
  let health1 := player.health - enemy.damage
  let enemy1 := { enemy with isActive := false }
  let explosion := createExplosion enemy.position 30
  let player1 :=
    if health1 ≤ 0 then
      let lives1 := player.lives - 1
      { player with
          health := player.maxHealth
          lives := lives1
          isActive := if lives1 ≤ 0 then false else player.isActive }
    else { player with health := health1 }
  (player1, enemy1, explosion)

/-- `GameEngine.handleBulletEnemyCollision(bullet, enemy)`: returns the
mutated bullet and enemy, the new score, and the new explosion list. -/
def handleBulletEnemyCollision (bullet : Bullet) (enemy : Enemy) (score : ℚ)
    (explosions : List Explosion) : Bullet × Enemy × ℚ × List Explosion :=
  let health1 := enemy.health - bullet.damage
  let bullet1 := { bullet with isActive := false }
  if health1 ≤ 0 then
    (bullet1, { enemy with health := health1, isActive := false }, score + enemy.points,
      explosions ++ [createExplosion enemy.position 25])
  else
    (bullet1, { enemy with health := health1 }, score, explosions)

/-- `GameEngine.handleBulletPlayerCollision(bullet, player)`. -/
def handleBulletPlayerCollision (bullet : Bullet) (player : Player) : Bullet × Player :=
  let health1 := player.health - bullet.damage
  let bullet1 := { bullet with isActive := false }
  let player1 :=
    if health1 ≤ 0 then
      let lives1 := player.lives - 1
      { player with
          health := player.maxHealth
          lives := lives1
          isActive := if lives1 ≤ 0 then false else player.isActive }
    else { player with health := health1 }
  (bullet1, player1)

/-- `GameEngine.applyPowerUp(player, powerUp)` — only the `health` arm
does anything; `weaponUpgrade` and `shield` are empty stubs. -/
def applyPowerUp (player : Player) (powerUp : PowerUp) : Player :=
  if powerUp.powerUpType = "health" then
    { player with health := min (player.health + powerUp.effect.value) player.maxHealth }
  else player

/-- `GameEngine.handlePlayerPowerUpCollision(player, powerUp)`. -/
def handlePlayerPowerUpCollision (player : Player) (powerUp : PowerUp) :
    Player × PowerUp :=
  (applyPowerUp player powerUp, { powerUp with isActive := false })

/-- JavaScript's `String.prototype.startsWith` (used by the collision
router on `bulletType`): a character-list prefix test.  Lean's own
`String.startsWith` is semantically identical but is opaque to kernel
evaluation, so the embedding uses this list form. -/
def strStartsWith (s pre : String) : Bool := pre.data.isPrefixOf s.data

/-- Pass 1 of `GameEngine.handleCollisions`: the Player×Enemy double
`forEach`.  In-place mutation is modelled by indexed list updates, so a
later pair sees the entities as already mutated by earlier pairs,
exactly as the source iteration does. -/
def collidePlayersEnemies (st : GameState) : GameState :=
  (List.range st.players.length).foldl (fun st1 i =>
    (List.range st1.enemies.length).foldl (fun st2 j =>
      match st2.players[i]?, st2.enemies[j]? with
      | some player, some enemy =>
        if checkCollision player.toGameObject enemy.toGameObject then
          let r := handlePlayerEnemyCollision player enemy
          { st2 with players := st2.players.set i r.1,
                     enemies := st2.enemies.set j r.2.1,
                     explosions := st2.explosions ++ [r.2.2] }
        else st2
      | _, _ => st2) st1) st

/-- Pass 2 of `GameEngine.handleCollisions`: player-originated bullets
against enemies (`bulletType.startsWith('player')`). -/
def collideBulletsEnemies (st : GameState) : GameState :=
  (List.range st.bullets.length).foldl (fun st1 i =>
    match st1.bullets[i]? with
    | some bullet0 =>
      if strStartsWith bullet0.bulletType "player" then
        (List.range st1.enemies.length).foldl (fun st2 j =>
          match st2.bullets[i]?, st2.enemies[j]? with
          | some bullet, some enemy =>
            if checkCollision bullet.toGameObject enemy.toGameObject then
              let r := handleBulletEnemyCollision bullet enemy st2.score st2.explosions
              { st2 with bullets := st2.bullets.set i r.1,
                         enemies := st2.enemies.set j r.2.1,
                         score := r.2.2.1,
                         explosions := r.2.2.2 }
            else st2
          | _, _ => st2) st1
      else st1
    | none => st1) st

/-- Pass 3 of `GameEngine.handleCollisions`: enemy-originated bullets
against players (`bulletType.startsWith('enemy')`). -/
def collideBulletsPlayers (st : GameState) : GameState :=
  (List.range st.bullets.length).foldl (fun st1 i =>
    match st1.bullets[i]? with
    | some bullet0 =>
      if strStartsWith bullet0.bulletType "enemy" then
        (List.range st1.players.length).foldl (fun st2 j =>
          match st2.bullets[i]?, st2.players[j]? with
          | some bullet, some player =>
            if checkCollision bullet.toGameObject player.toGameObject then
              let r := handleBulletPlayerCollision bullet player
              { st2 with bullets := st2.bullets.set i r.1,
                         players := st2.players.set j r.2 }
            else st2
          | _, _ => st2) st1
      else st1
    | none => st1) st

/-- Pass 4 of `GameEngine.handleCollisions`: players against
power-ups. -/
def collidePlayersPowerUps (st : GameState) : GameState :=
  (List.range st.players.length).foldl (fun st1 i =>
    (List.range st1.powerUps.length).foldl (fun st2 j =>
      match st2.players[i]?, st2.powerUps[j]? with
      | some player, some powerUp =>
        if checkCollision player.toGameObject powerUp.toGameObject then
          let r := handlePlayerPowerUpCollision player powerUp
          { st2 with players := st2.players.set i r.1,
                     powerUps := st2.powerUps.set j r.2 }
        else st2
      | _, _ => st2) st1) st

/-- `GameEngine.handleCollisions()`: the four passes in source order. -/
def handleCollisions (st : GameState) : GameState :=
  collidePlayersPowerUps (collideBulletsPlayers (collideBulletsEnemies
    (collidePlayersEnemies st)))

/-- `GameEngine.cleanupInactiveObjects()`. -/
def cleanupInactiveObjects (st : GameState) : GameState :=
  { st with players := st.players.filter fun p => p.isActive,
            enemies := st.enemies.filter fun e => e.isActive,
            bullets := st.bullets.filter fun b => b.isActive,
            powerUps := st.powerUps.filter fun p => p.isActive }

/-- `GameEngine.updateExplosions(deltaTime)`: every explosion's frame
and progress are advanced in place, then the expired ones are dropped. -/
def updateExplosions (deltaTime : ℚ) (st : GameState) : GameState :=
  let aged := st.explosions.map fun explosion =>
    let frame := explosion.currentFrame + deltaTime
    { explosion with
        currentFrame := frame
        animationProgress := min (frame / explosion.duration) 1 }
  { st with explosions :=
      aged.filter fun explosion => decide (explosion.currentFrame < explosion.duration) }

/-- `GameEngine.checkGameOverConditions()` (stopping the external loop
is outside the embedded state). -/
def checkGameOverConditions (st : GameState) : GameState :=
  if (st.players.filter fun p => p.isActive).length = 0 then
    { st with gameStatus := "gameOver" }
  else st

/-- One tick of `GameEngine.update()`: elapsed-time bookkeeping, physics,
enemy spawning, power-up spawning, collision resolution, cleanup,
explosion aging, game-over check.  The state handed to the
`onStateUpdate` callback is the returned state. -/
def engineUpdate (mm : MathModel) (cfg : GameConfig) (now lastUpdateTime : ℚ)
    (es : EnemySpawner) (ps : PowerUpSpawner) (sr : SpawnRand) (pr : PowerRand)
    (st : GameState) : GameState × EnemySpawner × PowerUpSpawner :=
  let deltaTime := now - lastUpdateTime
  let st1 := { st with timeElapsed := st.timeElapsed + deltaTime }
  let st2 := physicsUpdate mm cfg now st1 deltaTime
  let esr := spawnerUpdate cfg es st2 now sr
  let st3 := { st2 with enemies := st2.enemies ++ esr.2 }
  let psr := powerUpSpawnerUpdate cfg ps st3 now pr
  let st4 := { st3 with powerUps := st3.powerUps ++ psr.2 }
  let st5 := handleCollisions st4
  let st6 := cleanupInactiveObjects st5
  let st7 := updateExplosions deltaTime st6
  let st8 := checkGameOverConditions st7
  (st8, esr.1, psr.1)

/-! ### GameEngine lemmas and claim theorems -/

/-- A basic enemy with contact damage 10 (the claim C1 scenario's
"basic enemy of damage 10"). -/
def enemyDam10 : Enemy :=
  { id := "e1", position := ⟨400, 300⟩, velocity := ⟨0, 80⟩, size := ⟨30, 30⟩,
    rotation := 0, health := 10, maxHealth := 10, isActive := true,
    enemyType := "basic", damage := 10, points := 100, attackPattern := "straight",
    lastShotTime := none }

/-- One enemy-contact hit on a player, as resolved by
`handlePlayerEnemyCollision`. -/
def hitByBasicEnemy (q : Player) : Player := (handlePlayerEnemyCollision q enemyDam10).1

/-- Claim C1: in both collision handlers that damage a player, when the
player's health drops to ≤ 0 the lives counter decrements by exactly one
(staying ≥ 0 for a player that had a life left), health resets to
maxHealth, and the player is deactivated exactly when lives reaches 0;
and the scenario: a 100/100-health, 3-lives player hit ten times by a
damage-10 basic enemy ends with lives 2, health 100, still active. -/
theorem player_life_cycle (player : Player) (enemy : Enemy) (bullet : Bullet)
    (hA : player.isActive = true) (hL : 1 ≤ player.lives)
    (hKillE : player.health - enemy.damage ≤ 0)
    (hKillB : player.health - bullet.damage ≤ 0) :
    ((handlePlayerEnemyCollision player enemy).1.lives = player.lives - 1 ∧
      0 ≤ (handlePlayerEnemyCollision player enemy).1.lives ∧
      (handlePlayerEnemyCollision player enemy).1.health = player.maxHealth ∧
      ((handlePlayerEnemyCollision player enemy).1.isActive = false ↔
        (handlePlayerEnemyCollision player enemy).1.lives = 0)) ∧
    ((handleBulletPlayerCollision bullet player).2.lives = player.lives - 1 ∧
      0 ≤ (handleBulletPlayerCollision bullet player).2.lives ∧
      (handleBulletPlayerCollision bullet player).2.health = player.maxHealth ∧
      ((handleBulletPlayerCollision bullet player).2.isActive = false ↔
        (handleBulletPlayerCollision bullet player).2.lives = 0)) ∧
    hitByBasicEnemy (hitByBasicEnemy (hitByBasicEnemy (hitByBasicEnemy (hitByBasicEnemy
        (hitByBasicEnemy (hitByBasicEnemy (hitByBasicEnemy (hitByBasicEnemy
          (hitByBasicEnemy playerMid))))))))) =
      { playerMid with lives := 2 } := by
  refine ⟨?_, ?_, ?_⟩
  · have h1 : (handlePlayerEnemyCollision player enemy).1 =
        { player with
            health := player.maxHealth
            lives := player.lives - 1
            isActive := if player.lives - 1 ≤ 0 then false else player.isActive } := by
      simp only [handlePlayerEnemyCollision, hKillE, if_true]
    rw [h1]
    refine ⟨rfl, ?_, rfl, ?_⟩
    · show 0 ≤ player.lives - 1
      linarith
    · show (if player.lives - 1 ≤ 0 then false else player.isActive) = false ↔
        player.lives - 1 = 0
      split_ifs with h
      · constructor
        · intro _; linarith
        · intro _; rfl
      · rw [hA]
        constructor
        · intro hcontra; exact absurd hcontra (by simp)
        · intro heq; exact absurd (le_of_eq heq) h
  · have h2 : (handleBulletPlayerCollision bullet player).2 =
        { player with
            health := player.maxHealth
            lives := player.lives - 1
            isActive := if player.lives - 1 ≤ 0 then false else player.isActive } := by
      simp only [handleBulletPlayerCollision, hKillB, if_true]
    rw [h2]
    refine ⟨rfl, ?_, rfl, ?_⟩
    · show 0 ≤ player.lives - 1
      linarith
    · show (if player.lives - 1 ≤ 0 then false else player.isActive) = false ↔
        player.lives - 1 = 0
      split_ifs with h
      · constructor
        · intro _; linarith
        · intro _; rfl
      · rw [hA]
        constructor
        · intro hcontra; exact absurd hcontra (by simp)
        · intro heq; exact absurd (le_of_eq heq) h
  · norm_num [hitByBasicEnemy, handlePlayerEnemyCollision, createExplosion,
      playerMid, enemyDam10]

/-- Witness for claim C1 at a concrete lethal hit: the mid-screen player
reduced to 5 health, struck by the damage-10 basic enemy. -/
theorem player_life_cycle_witness :
    (handlePlayerEnemyCollision { playerMid with health := 5 } enemyDam10).1.lives =
        { playerMid with health := 5 : Player }.lives - 1 :=
  (player_life_cycle { playerMid with health := 5 } enemyDam10
      (createBullet [] ⟨0, 0⟩ ⟨0, 0⟩ "x" "enemyBasic") rfl
      (by norm_num [playerMid]) (by norm_num [playerMid, enemyDam10])
      (by norm_num [playerMid, createBullet])).1.1

/-- The wave-1 basic enemy as the spawner actually creates it
(health 10, points 100). -/
def basicEnemyW1 : Enemy := createEnemy cfg800 (EnemySpawner.init 0) ⟨0, 0, 0⟩ "basic"

/-- A damage-10 player bullet as `GameEngine.createBullet` creates it
for the mid-screen player. -/
def bulletDam10 : Bullet := createBullet [playerMid] ⟨400, 285⟩ ⟨0, -500⟩ "p3" "playerBasic"

/-- Claim C4: a player bullet hitting an enemy subtracts its damage from
the enemy's health and deactivates; when the enemy's health thereby
drops to ≤ 0, the enemy deactivates, the score grows by exactly the
enemy's point value, and exactly one explosion is appended (otherwise
score and explosions are untouched and the enemy stays as it was).  The
wave-1 basic enemy has health 10 and points 100, so a damage-10 bullet
does all this on the first hit. -/
theorem bullet_enemy_collision (bullet : Bullet) (enemy : Enemy) (score : ℚ)
    (explosions : List Explosion) :
    ((handleBulletEnemyCollision bullet enemy score explosions).1.isActive = false ∧
      (handleBulletEnemyCollision bullet enemy score explosions).2.1.health =
        enemy.health - bullet.damage ∧
      (enemy.health - bullet.damage ≤ 0 →
        (handleBulletEnemyCollision bullet enemy score explosions).2.1.isActive = false ∧
        (handleBulletEnemyCollision bullet enemy score explosions).2.2.1 =
          score + enemy.points ∧
        (handleBulletEnemyCollision bullet enemy score explosions).2.2.2 =
          explosions ++ [createExplosion enemy.position 25]) ∧
      (¬ enemy.health - bullet.damage ≤ 0 →
        (handleBulletEnemyCollision bullet enemy score explosions).2.1.isActive =
          enemy.isActive ∧
        (handleBulletEnemyCollision bullet enemy score explosions).2.2.1 = score ∧
        (handleBulletEnemyCollision bullet enemy score explosions).2.2.2 = explosions)) ∧
    ((getEnemyStats (EnemySpawner.init 0) "basic").health = 10 ∧
      (getEnemyStats (EnemySpawner.init 0) "basic").points = 100 ∧
      basicEnemyW1.health = 10 ∧ basicEnemyW1.points = 100 ∧ bulletDam10.damage = 10 ∧
      strStartsWith bulletDam10.bulletType "player" = true) ∧
    ((handleBulletEnemyCollision bulletDam10 basicEnemyW1 0 []).2.1.isActive = false ∧
      (handleBulletEnemyCollision bulletDam10 basicEnemyW1 0 []).1.isActive = false ∧
      (handleBulletEnemyCollision bulletDam10 basicEnemyW1 0 []).2.2.1 = 100 ∧
      (handleBulletEnemyCollision bulletDam10 basicEnemyW1 0 []).2.2.2.length = 1) := by
  refine ⟨⟨?_, ?_, ?_, ?_⟩, ?_, ?_⟩
  · simp only [handleBulletEnemyCollision]
    split_ifs <;> rfl
  · simp only [handleBulletEnemyCollision]
    split_ifs <;> rfl
  · intro h
    simp only [handleBulletEnemyCollision]
    rw [if_pos h]
    exact ⟨rfl, rfl, rfl⟩
  · intro h
    simp only [handleBulletEnemyCollision]
    rw [if_neg h]
    exact ⟨rfl, rfl, rfl⟩
  · refine ⟨?_, ?_, ?_, ?_, ?_, ?_⟩ <;>
      first
        | rfl
        | decide
        | norm_num [basicEnemyW1, bulletDam10, createEnemy, createBullet, getEnemyStats,
            getRandomAttackPattern, EnemySpawner.init, cfg800]
  · have hb : basicEnemyW1.health - bulletDam10.damage ≤ 0 := by
      norm_num [basicEnemyW1, bulletDam10, createEnemy, createBullet, getEnemyStats,
        EnemySpawner.init]
    simp only [handleBulletEnemyCollision]
    rw [if_pos hb]
    refine ⟨rfl, rfl, ?_, rfl⟩
    norm_num [basicEnemyW1, createEnemy, getEnemyStats, EnemySpawner.init]

/-- Witness for claim C4: the conditional arm applied at the concrete
first-hit scenario. -/
theorem bullet_enemy_collision_witness :
    (handleBulletEnemyCollision bulletDam10 basicEnemyW1 0 []).2.1.isActive = false :=
  ((bullet_enemy_collision bulletDam10 basicEnemyW1 0 []).1.2.2.1
    (by norm_num [basicEnemyW1, bulletDam10, createEnemy, createBullet, getEnemyStats,
      EnemySpawner.init])).1

theorem setFirstPlayerPosition_not_found (l : List Player) (playerId : String)
    (position : Vec) (h : ∀ p ∈ l, p.playerId ≠ playerId) :
    setFirstPlayerPosition l playerId position = l := by
  induction l with
  | nil => rfl
  | cons p rest ih =>
    have hp : (p.playerId == playerId) = false :=
      beq_eq_false_iff_ne.mpr (h p (List.mem_cons_self _ _))
    simp only [setFirstPlayerPosition, hp, Bool.false_eq_true, if_false]
    rw [ih fun q hq => h q (List.mem_cons_of_mem _ hq)]

/-- Claim C8: when no player in the state carries the given `playerId`,
both `updatePlayerPosition` and `playerShoot` return the state entirely
unchanged — the lookup miss is a silent no-op. -/
theorem lookup_miss_noop (cfg : GameConfig) (st : GameState) (playerId : String)
    (position : Vec) (h : ∀ p ∈ st.players, p.playerId ≠ playerId) :
    updatePlayerPosition st playerId position = st ∧ playerShoot cfg st playerId = st := by
  constructor
  · show { st with players := setFirstPlayerPosition st.players playerId position } = st
    rw [setFirstPlayerPosition_not_found st.players playerId position h]
  · have hf : st.players.find? (fun p => p.playerId == playerId) = none :=
      List.find?_eq_none.mpr fun x hx => by
        simp only [beq_iff_eq]
        exact h x hx
    simp only [playerShoot, hf]

/-- Witness for claim C8 on a one-player state and the absent id
`"ghost"`. -/
theorem lookup_miss_noop_witness :
    updatePlayerPosition { stEmpty with players := [playerMid] } "ghost" ⟨1, 2⟩ =
        { stEmpty with players := [playerMid] } ∧
      playerShoot cfg800 { stEmpty with players := [playerMid] } "ghost" =
        { stEmpty with players := [playerMid] } :=
  lookup_miss_noop cfg800 { stEmpty with players := [playerMid] } "ghost" ⟨1, 2⟩
    (by
      intro p hp
      simp only [List.mem_singleton] at hp
      subst hp
      decide)

/-- The mid-screen player rearmed with the `laser` weapon variant. -/
def playerLaser : Player := { playerMid with weaponType := "laser" }

/-- Claim C10: for a player whose weapon variant is neither `basic` nor
`spreadShot`, `createPlayerBullets` yields no bullet, and `playerShoot`
leaves the state unchanged even while the game status is `playing`. -/
theorem unknown_weapon_no_bullets (cfg : GameConfig) (st : GameState) (playerId : String)
    (player : Player)
    (hfind : st.players.find? (fun p => p.playerId == playerId) = some player)
    (hw1 : player.weaponType ≠ "basic") (hw2 : player.weaponType ≠ "spreadShot") :
    createPlayerBullets cfg st.players player = [] ∧ playerShoot cfg st playerId = st := by
  have hcb : createPlayerBullets cfg st.players player = [] := by
    simp only [createPlayerBullets]
    rw [if_neg hw1, if_neg hw2]
  refine ⟨hcb, ?_⟩
  simp only [playerShoot, hfind]
  split_ifs with hstatus
  · rw [hcb, List.append_nil]
  · rfl

/-- Witness for claim C10: a `laser`-armed player firing while the game
status is `playing`. -/
theorem unknown_weapon_no_bullets_witness :
    createPlayerBullets cfg800 ({ stEmpty with players := [playerLaser] } : GameState).players
        playerLaser = [] ∧
      playerShoot cfg800 { stEmpty with players := [playerLaser] } "p3" =
        { stEmpty with players := [playerLaser] } :=
  unknown_weapon_no_bullets cfg800 { stEmpty with players := [playerLaser] } "p3"
    playerLaser rfl (by decide) (by decide)

theorem filter_all_self {α : Type} (l : List α) (f : α → Bool) :
    (l.filter f).all f = true := by
  rw [List.all_eq_true]
  exact fun a ha => (List.mem_filter.mp ha).2

theorem updateExplosions_players (dt : ℚ) (st : GameState) :
    (updateExplosions dt st).players = st.players := rfl

theorem updateExplosions_enemies (dt : ℚ) (st : GameState) :
    (updateExplosions dt st).enemies = st.enemies := rfl

theorem updateExplosions_bullets (dt : ℚ) (st : GameState) :
    (updateExplosions dt st).bullets = st.bullets := rfl

theorem updateExplosions_powerUps (dt : ℚ) (st : GameState) :
    (updateExplosions dt st).powerUps = st.powerUps := rfl

theorem cleanupInactiveObjects_players (st : GameState) :
    (cleanupInactiveObjects st).players = st.players.filter fun p => p.isActive := rfl

theorem cleanupInactiveObjects_enemies (st : GameState) :
    (cleanupInactiveObjects st).enemies = st.enemies.filter fun e => e.isActive := rfl

theorem cleanupInactiveObjects_bullets (st : GameState) :
    (cleanupInactiveObjects st).bullets = st.bullets.filter fun b => b.isActive := rfl

theorem cleanupInactiveObjects_powerUps (st : GameState) :
    (cleanupInactiveObjects st).powerUps = st.powerUps.filter fun p => p.isActive := rfl

theorem checkGameOverConditions_players (st : GameState) :
    (checkGameOverConditions st).players = st.players := by
  unfold checkGameOverConditions
  split <;> rfl

theorem checkGameOverConditions_enemies (st : GameState) :
    (checkGameOverConditions st).enemies = st.enemies := by
  unfold checkGameOverConditions
  split <;> rfl

theorem checkGameOverConditions_bullets (st : GameState) :
    (checkGameOverConditions st).bullets = st.bullets := by
  unfold checkGameOverConditions
  split <;> rfl

theorem checkGameOverConditions_powerUps (st : GameState) :
    (checkGameOverConditions st).powerUps = st.powerUps := by
  unfold checkGameOverConditions
  split <;> rfl

/-- Claim C9: after one full Engine `update()` tick, every entity still
present in the players, enemies, bullets and powerUps collections (the
snapshot handed to the state-update callback) is active: the cleanup
filter runs after every activity-touching pass, and neither explosion
aging nor the game-over check touches those four collections. -/
theorem engineUpdate_all_active (mm : MathModel) (cfg : GameConfig)
    (now lastUpdateTime : ℚ) (es : EnemySpawner) (ps : PowerUpSpawner) (sr : SpawnRand)
    (pr : PowerRand) (st : GameState) :
    ((engineUpdate mm cfg now lastUpdateTime es ps sr pr st).1.players.all
        fun p => p.isActive) = true ∧
    ((engineUpdate mm cfg now lastUpdateTime es ps sr pr st).1.enemies.all
        fun e => e.isActive) = true ∧
    ((engineUpdate mm cfg now lastUpdateTime es ps sr pr st).1.bullets.all
        fun b => b.isActive) = true ∧
    ((engineUpdate mm cfg now lastUpdateTime es ps sr pr st).1.powerUps.all
        fun p => p.isActive) = true := by
  refine ⟨?_, ?_, ?_, ?_⟩
  · simp only [engineUpdate, checkGameOverConditions_players, updateExplosions_players,
      cleanupInactiveObjects_players]
    exact filter_all_self _ _
  · simp only [engineUpdate, checkGameOverConditions_enemies, updateExplosions_enemies,
      cleanupInactiveObjects_enemies]
    exact filter_all_self _ _
  · simp only [engineUpdate, checkGameOverConditions_bullets, updateExplosions_bullets,
      cleanupInactiveObjects_bullets]
    exact filter_all_self _ _
  · simp only [engineUpdate, checkGameOverConditions_powerUps, updateExplosions_powerUps,
      cleanupInactiveObjects_powerUps]
    exact filter_all_self _ _

/-! ### EnemySpawner claim theorems -/

theorem spawnerUpdate_waveNumber (cfg : GameConfig) (s : EnemySpawner) (gs : GameState)
    (now : ℚ) (r : SpawnRand) :
    (spawnerUpdate cfg s gs now r).1.waveNumber = (waveStage s gs now).waveNumber := by
  simp only [spawnerUpdate]
  split_ifs <;> rfl

theorem shouldStartNewWave_iff (s : EnemySpawner) (gs : GameState) (now : ℚ) :
    shouldStartNewWave s gs now = true ↔
      ((gs.enemies.filter fun e => e.isActive).length = 0 ∧
        s.timeBetweenWaves < now - s.lastWaveTime ∧
        s.maxEnemiesPerWave ≤ s.enemiesInCurrentWave) := by
  simp only [shouldStartNewWave, Bool.and_eq_true, decide_eq_true_eq, beq_iff_eq,
    gt_iff_lt, ge_iff_le]
  tauto

/-- Claim C3: the spawner advances to a new wave exactly when zero
enemies are active, the inter-wave delay has elapsed since the last wave
start, and the wave quota has been fully spawned; on that trigger the
wave number increments by 1, and the `startNewWave` transition resets
`enemiesInCurrentWave` to 0 and the boss flag, multiplies the spawn
interval by 0.9 with floor 500, grows the quota by 1 capped at 15, and
multiplies the inter-wave delay by 0.95 with floor 2000. -/
theorem wave_advance (cfg : GameConfig) (s : EnemySpawner) (gs : GameState) (now : ℚ)
    (r : SpawnRand) :
    ((spawnerUpdate cfg s gs now r).1.waveNumber = s.waveNumber + 1 ↔
      ((gs.enemies.filter fun e => e.isActive).length = 0 ∧
        s.timeBetweenWaves < now - s.lastWaveTime ∧
        s.maxEnemiesPerWave ≤ s.enemiesInCurrentWave)) ∧
    (¬ ((gs.enemies.filter fun e => e.isActive).length = 0 ∧
        s.timeBetweenWaves < now - s.lastWaveTime ∧
        s.maxEnemiesPerWave ≤ s.enemiesInCurrentWave) →
      (spawnerUpdate cfg s gs now r).1.waveNumber = s.waveNumber) ∧
    ((startNewWave s now).waveNumber = s.waveNumber + 1 ∧
      (startNewWave s now).enemiesInCurrentWave = 0 ∧
      (startNewWave s now).bossSpawned = false ∧
      (startNewWave s now).lastWaveTime = now ∧
      (startNewWave s now).spawnInterval = max 500 (s.spawnInterval * 0.9) ∧
      (startNewWave s now).maxEnemiesPerWave = min 15 (s.maxEnemiesPerWave + 1) ∧
      (startNewWave s now).timeBetweenWaves = max 2000 (s.timeBetweenWaves * 0.95)) := by
  refine ⟨?_, ?_, rfl, rfl, rfl, rfl, rfl, rfl, rfl⟩
  · rw [spawnerUpdate_waveNumber]
    unfold waveStage
    split_ifs with h
    · constructor
      · intro _
        exact (shouldStartNewWave_iff s gs now).mp h
      · intro _
        rfl
    · constructor
      · intro heq
        exact absurd heq (by omega)
      · intro ht
        exact absurd ((shouldStartNewWave_iff s gs now).mpr ht) h
  · intro hnt
    rw [spawnerUpdate_waveNumber]
    unfold waveStage
    rw [if_neg fun hb => hnt ((shouldStartNewWave_iff s gs now).mp hb)]

/-- The spawner at the end of wave 1: quota of 5 fully spawned, last
spawn at t = 10001. -/
def spawnerEndOfWave1 : EnemySpawner :=
  { EnemySpawner.init 0 with enemiesInCurrentWave := 5, lastSpawnTime := 10001 }

/-- Witness for claim C3, the spec's scenario C: with zero active
enemies, delay elapsed and quota spawned, one `update` call at t = 10002
takes the wave from 1 to 2, and the wave transition resets the per-wave
counter to 0. -/
theorem wave_advance_witness :
    (spawnerUpdate cfg800 spawnerEndOfWave1 stEmpty 10002 ⟨0, 0, 0⟩).1.waveNumber =
        spawnerEndOfWave1.waveNumber + 1 ∧
      (startNewWave spawnerEndOfWave1 10002).enemiesInCurrentWave = 0 :=
  ⟨(wave_advance cfg800 spawnerEndOfWave1 stEmpty 10002 ⟨0, 0, 0⟩).1.mpr
      ⟨rfl, by norm_num [spawnerEndOfWave1, EnemySpawner.init], by decide⟩,
    (wave_advance cfg800 spawnerEndOfWave1 stEmpty 10002 ⟨0, 0, 0⟩).2.2.2.1⟩

/-! ### Boss-cadence machinery (claim C6) -/

theorem getAvailableEnemyTypes_ne_boss (s : EnemySpawner) :
    ∀ x ∈ getAvailableEnemyTypes s, x ≠ "boss" := by
  intro x hx heq
  subst heq
  unfold getAvailableEnemyTypes at hx
  split_ifs at hx <;> revert hx <;> decide

theorem createRandomEnemy_type_ne_boss (cfg : GameConfig) (s : EnemySpawner)
    (r : SpawnRand) : (createRandomEnemy cfg s r).enemyType ≠ "boss" := by
  show (getAvailableEnemyTypes s).getD
      (⌊r.randType * ((getAvailableEnemyTypes s).length : ℚ)⌋).toNat "basic" ≠ "boss"
  rw [List.getD_eq_getElem?_getD]
  cases hg : (getAvailableEnemyTypes s)[(⌊r.randType *
      ((getAvailableEnemyTypes s).length : ℚ)⌋).toNat]? with
  | none => decide
  | some x =>
    simp only [Option.getD_some]
    exact getAvailableEnemyTypes_ne_boss s x (List.getElem?_mem hg)

theorem shouldSpawnBoss_iff (s : EnemySpawner) :
    shouldSpawnBoss s = true ↔
      (s.waveNumber % 5 = 0 ∧ s.bossSpawned = false ∧
        (s.maxEnemiesPerWave : ℚ) * 0.8 ≤ (s.enemiesInCurrentWave : ℚ)) := by
  simp only [shouldSpawnBoss, Bool.and_eq_true, beq_iff_eq, Bool.not_eq_true',
    decide_eq_true_eq, ge_iff_le]
  tauto

theorem spawnerUpdate_snd_boss (cfg : GameConfig) (s : EnemySpawner) (gs : GameState)
    (now : ℚ) (r : SpawnRand) (e : Enemy) (he : e ∈ (spawnerUpdate cfg s gs now r).2)
    (het : e.enemyType = "boss") :
    shouldSpawnBoss (waveStage s gs now) = true ∧
      e = createBoss cfg (waveStage s gs now) := by
  simp only [spawnerUpdate] at he
  split_ifs at he with h1 h2 h3 <;>
    simp only [List.mem_append, List.mem_singleton, List.not_mem_nil, false_or,
      or_false, List.nil_append, List.singleton_append, List.mem_cons] at he
  · rcases he with he | he
    · exact ⟨h1, he⟩
    · exact absurd het (he ▸ createRandomEnemy_type_ne_boss cfg _ r)
  · exact ⟨h1, he⟩
  · exact absurd het (he ▸ createRandomEnemy_type_ne_boss cfg _ r)

theorem spawnerUpdate_flag (cfg : GameConfig) (s : EnemySpawner) (gs : GameState)
    (now : ℚ) (r : SpawnRand) :
    (spawnerUpdate cfg s gs now r).1.bossSpawned =
      ((waveStage s gs now).bossSpawned || shouldSpawnBoss (waveStage s gs now)) := by
  simp only [spawnerUpdate]
  split_ifs with h1 h2 h3
  · rw [h1, Bool.or_true]
  · rw [h1, Bool.or_true]
  · rw [Bool.eq_false_iff.mpr h1, Bool.or_false]
  · rw [Bool.eq_false_iff.mpr h1, Bool.or_false]

theorem waveStage_cases (s : EnemySpawner) (gs : GameState) (now : ℚ) :
    waveStage s gs now = s ∨ waveStage s gs now = startNewWave s now := by
  unfold waveStage
  split_ifs
  · right; rfl
  · left; rfl

theorem spawnerUpdate_wave_mono (cfg : GameConfig) (s : EnemySpawner) (gs : GameState)
    (now : ℚ) (r : SpawnRand) :
    s.waveNumber ≤ (spawnerUpdate cfg s gs now r).1.waveNumber := by
  rw [spawnerUpdate_waveNumber]
  rcases waveStage_cases s gs now with hw | hw
  · simp [hw]
  · rw [hw]
    show s.waveNumber ≤ s.waveNumber + 1
    omega

theorem spawnerUpdate_flag_step (cfg : GameConfig) (s : EnemySpawner) (gs : GameState)
    (now : ℚ) (r : SpawnRand) (hB : s.bossSpawned = true) :
    ((spawnerUpdate cfg s gs now r).1.waveNumber = s.waveNumber ∧
      (spawnerUpdate cfg s gs now r).1.bossSpawned = true) ∨
    s.waveNumber < (spawnerUpdate cfg s gs now r).1.waveNumber := by
  rcases waveStage_cases s gs now with hw | hw
  · left
    constructor
    · rw [spawnerUpdate_waveNumber, hw]
    · rw [spawnerUpdate_flag, hw, hB, Bool.true_or]
  · right
    rw [spawnerUpdate_waveNumber, hw]
    show s.waveNumber < s.waveNumber + 1
    omega

/-- One input to a spawner `update` call: the `Date.now()` reading, the
surrounding game state, and the random draws. -/
structure SpawnInput where
  now : ℚ
  gs : GameState
  rand : SpawnRand
deriving DecidableEq

/-- A run of the enemy spawner: iterated `update` calls (the only way
the engine drives it). -/
def runSpawner (cfg : GameConfig) (s : EnemySpawner) (inputs : List SpawnInput) :
    EnemySpawner :=
  inputs.foldl (fun t inp => (spawnerUpdate cfg t inp.gs inp.now inp.rand).1) s

/-- The spawner state after the first `k` steps of a run started from
the freshly constructed spawner. -/
def spawnerStateAt (cfg : GameConfig) (t0 : ℚ) (inputs : List SpawnInput) (k : ℕ) :
    EnemySpawner :=
  runSpawner cfg (EnemySpawner.init t0) (inputs.take k)

/-- Whether step `k` of the run emits a boss enemy. -/
def bossOutAt (cfg : GameConfig) (t0 : ℚ) (inputs : List SpawnInput) (k : ℕ) : Bool :=
  match inputs[k]? with
  | some inp =>
      (spawnerUpdate cfg (spawnerStateAt cfg t0 inputs k) inp.gs inp.now inp.rand).2.any
        fun e => e.enemyType == "boss"
  | none => false

theorem runSpawner_cons (cfg : GameConfig) (s : EnemySpawner) (inp : SpawnInput)
    (rest : List SpawnInput) :
    runSpawner cfg s (inp :: rest) =
      runSpawner cfg (spawnerUpdate cfg s inp.gs inp.now inp.rand).1 rest := rfl

theorem runSpawner_wave_mono (cfg : GameConfig) (inputs : List SpawnInput) :
    ∀ s : EnemySpawner, s.waveNumber ≤ (runSpawner cfg s inputs).waveNumber := by
  induction inputs with
  | nil => intro s; exact Nat.le_refl _
  | cons inp rest ih =>
    intro s
    rw [runSpawner_cons]
    exact Nat.le_trans (spawnerUpdate_wave_mono cfg s inp.gs inp.now inp.rand)
      (ih _)

theorem runSpawner_flag (cfg : GameConfig) (inputs : List SpawnInput) :
    ∀ s : EnemySpawner, s.bossSpawned = true →
      (((runSpawner cfg s inputs).waveNumber = s.waveNumber ∧
        (runSpawner cfg s inputs).bossSpawned = true) ∨
      s.waveNumber < (runSpawner cfg s inputs).waveNumber) := by
  induction inputs with
  | nil => intro s hB; exact Or.inl ⟨rfl, hB⟩
  | cons inp rest ih =>
    intro s hB
    rw [runSpawner_cons]
    rcases spawnerUpdate_flag_step cfg s inp.gs inp.now inp.rand hB with ⟨hw, hf⟩ | hlt
    · rcases ih _ hf with ⟨hw2, hf2⟩ | hlt2
      · exact Or.inl ⟨by rw [hw2, hw], hf2⟩
      · exact Or.inr (by omega)
    · exact Or.inr (Nat.lt_of_lt_of_le hlt (runSpawner_wave_mono cfg rest _))

theorem spawnerStateAt_succ (cfg : GameConfig) (t0 : ℚ) (inputs : List SpawnInput)
    (k : ℕ) (inp : SpawnInput) (hk : inputs[k]? = some inp) :
    spawnerStateAt cfg t0 inputs (k + 1) =
      (spawnerUpdate cfg (spawnerStateAt cfg t0 inputs k) inp.gs inp.now inp.rand).1 := by
  unfold spawnerStateAt runSpawner
  rw [List.take_succ, hk, List.foldl_append]
  rfl

theorem spawnerStateAt_drop (cfg : GameConfig) (t0 : ℚ) (inputs : List SpawnInput)
    (k l : ℕ) (hkl : k ≤ l) :
    spawnerStateAt cfg t0 inputs l =
      runSpawner cfg (spawnerStateAt cfg t0 inputs k) ((inputs.drop k).take (l - k)) := by
  unfold spawnerStateAt runSpawner
  rw [← List.foldl_append, ← List.take_add]
  congr 2
  omega

/-- Claim C6: in every run of the enemy spawner from its initial state,
(1) a boss is emitted at a step only when the wave number in force after
that step is divisible by 5 and at least 80% of the wave's regular quota
had been spawned at the boss check; (2) two boss-emitting steps always
belong to strictly increasing wave numbers — at most one boss per wave;
(3) every emitted boss enemy has the circular attack pattern and spawns
horizontally centered above the screen. -/
theorem boss_cadence (cfg : GameConfig) (t0 : ℚ) (inputs : List SpawnInput) :
    (∀ k : ℕ, bossOutAt cfg t0 inputs k = true →
      (spawnerStateAt cfg t0 inputs (k + 1)).waveNumber % 5 = 0 ∧
      ∃ inp, inputs[k]? = some inp ∧
        ((waveStage (spawnerStateAt cfg t0 inputs k) inp.gs
            inp.now).maxEnemiesPerWave : ℚ) * 0.8 ≤
          ((waveStage (spawnerStateAt cfg t0 inputs k) inp.gs
            inp.now).enemiesInCurrentWave : ℚ)) ∧
    (∀ k l : ℕ, k < l → bossOutAt cfg t0 inputs k = true →
      bossOutAt cfg t0 inputs l = true →
      (spawnerStateAt cfg t0 inputs (k + 1)).waveNumber <
        (spawnerStateAt cfg t0 inputs (l + 1)).waveNumber) ∧
    (∀ (k : ℕ) (inp : SpawnInput) (e : Enemy), inputs[k]? = some inp →
      e ∈ (spawnerUpdate cfg (spawnerStateAt cfg t0 inputs k) inp.gs inp.now
        inp.rand).2 →
      e.enemyType = "boss" →
      e.attackPattern = "circular" ∧
        e.position = (⟨cfg.screenWidth / 2, -50⟩ : Vec)) := by
  refine ⟨?_, ?_, ?_⟩
  · intro k hb
    unfold bossOutAt at hb
    cases hk : inputs[k]? with
    | none => rw [hk] at hb; cases hb
    | some inp =>
      rw [hk] at hb
      obtain ⟨e, he, het⟩ := List.any_eq_true.mp hb
      rw [beq_iff_eq] at het
      obtain ⟨hboss, -⟩ :=
        spawnerUpdate_snd_boss cfg (spawnerStateAt cfg t0 inputs k) inp.gs inp.now
          inp.rand e he het
      obtain ⟨h5, -, h80⟩ := (shouldSpawnBoss_iff _).mp hboss
      constructor
      · rw [spawnerStateAt_succ cfg t0 inputs k inp hk, spawnerUpdate_waveNumber]
        exact h5
      · exact ⟨inp, rfl, h80⟩
  · intro k l hkl hbk hbl
    unfold bossOutAt at hbk hbl
    cases hk : inputs[k]? with
    | none => rw [hk] at hbk; cases hbk
    | some inpk =>
    cases hl : inputs[l]? with
    | none => rw [hl] at hbl; cases hbl
    | some inpl =>
      rw [hk] at hbk
      rw [hl] at hbl
      obtain ⟨ek, hek, hetk⟩ := List.any_eq_true.mp hbk
      rw [beq_iff_eq] at hetk
      obtain ⟨hbossk, -⟩ :=
        spawnerUpdate_snd_boss cfg (spawnerStateAt cfg t0 inputs k) inpk.gs inpk.now
          inpk.rand ek hek hetk
      obtain ⟨el, hel, hetl⟩ := List.any_eq_true.mp hbl
      rw [beq_iff_eq] at hetl
      obtain ⟨hbossl, -⟩ :=
        spawnerUpdate_snd_boss cfg (spawnerStateAt cfg t0 inputs l) inpl.gs inpl.now
          inpl.rand el hel hetl
      have hflagk : (spawnerStateAt cfg t0 inputs (k + 1)).bossSpawned = true := by
        rw [spawnerStateAt_succ cfg t0 inputs k inpk hk, spawnerUpdate_flag, hbossk,
          Bool.or_true]
      have hseg := spawnerStateAt_drop cfg t0 inputs (k + 1) l (by omega)
      have hrun := runSpawner_flag cfg ((inputs.drop (k + 1)).take (l - (k + 1)))
        (spawnerStateAt cfg t0 inputs (k + 1)) hflagk
      rw [← hseg] at hrun
      have hwavel : (spawnerStateAt cfg t0 inputs (l + 1)).waveNumber =
          (waveStage (spawnerStateAt cfg t0 inputs l) inpl.gs inpl.now).waveNumber := by
        rw [spawnerStateAt_succ cfg t0 inputs l inpl hl, spawnerUpdate_waveNumber]
      have hflagl : (waveStage (spawnerStateAt cfg t0 inputs l) inpl.gs
          inpl.now).bossSpawned = false :=
        ((shouldSpawnBoss_iff _).mp hbossl).2.1
      rcases hrun with ⟨hw2, hf2⟩ | hlt2
      · rcases waveStage_cases (spawnerStateAt cfg t0 inputs l) inpl.gs inpl.now with
          hws | hws
        · rw [hws] at hflagl
          rw [hflagl] at hf2
          cases hf2
        · rw [hwavel, hws]
          have : (startNewWave (spawnerStateAt cfg t0 inputs l) inpl.now).waveNumber =
              (spawnerStateAt cfg t0 inputs l).waveNumber + 1 := rfl
          omega
      · rcases waveStage_cases (spawnerStateAt cfg t0 inputs l) inpl.gs inpl.now with
          hws | hws
        · rw [hwavel, hws]
          omega
        · rw [hwavel, hws]
          have : (startNewWave (spawnerStateAt cfg t0 inputs l) inpl.now).waveNumber =
              (spawnerStateAt cfg t0 inputs l).waveNumber + 1 := rfl
          omega
  · intro k inp e hk he het
    obtain ⟨-, hcb⟩ :=
      spawnerUpdate_snd_boss cfg (spawnerStateAt cfg t0 inputs k) inp.gs inp.now
        inp.rand e he het
    rw [hcb]
    exact ⟨rfl, rfl⟩

/-- The shared random draws of the concrete C6 run. -/
def c6in (t : ℚ) : SpawnInput := ⟨t, stEmpty, ⟨0, 0, 0⟩⟩

/-- A concrete 35-step run of the enemy spawner: five enemies of wave 1,
then waves 2, 3 and 4 with their growing quotas, then wave 5, whose step
34 reaches 80% of the quota and emits the boss. -/
def c6inputs : List SpawnInput :=
  [c6in 100000, c6in 200000, c6in 300000, c6in 400000, c6in 500000, c6in 600000, c6in
    700000, c6in 800000, c6in 900000, c6in 1000000, c6in 1100000, c6in 1200000, c6in
    1300000, c6in 1400000, c6in 1500000, c6in 1600000, c6in 1700000, c6in 1800000, c6in
    1900000, c6in 2000000, c6in 2100000, c6in 2200000, c6in 2300000, c6in 2400000, c6in
    2500000, c6in 2600000, c6in 2700000, c6in 2800000, c6in 2900000, c6in 3000000, c6in
    3100000, c6in 3200000, c6in 3300000, c6in 3400000, c6in 3500000]

/-- Witness for claim C6: in the concrete 35-step run a boss is in fact
emitted (at step 34), and the claim instantiated there yields a wave
number divisible by 5. -/
theorem boss_cadence_witness :
    bossOutAt cfg800 0 c6inputs 34 = true ∧
      (spawnerStateAt cfg800 0 c6inputs (34 + 1)).waveNumber % 5 = 0 := by
  have h0 : spawnerStateAt cfg800 0 c6inputs 0 = EnemySpawner.init 0 := rfl
  have h1 : spawnerStateAt cfg800 0 c6inputs 1 = ⟨100000, 2000, 1, 1, 5, 5000, 0, false⟩ := by
    rw [spawnerStateAt_succ cfg800 0 c6inputs 0 (c6in 100000) rfl, h0]
    norm_num [spawnerUpdate, waveStage, shouldStartNewWave, startNewWave,
      scaleDifficulty, shouldSpawnBoss, shouldSpawnEnemy, createRandomEnemy,
      createEnemy, getAvailableEnemyTypes, getEnemyStats, getRandomAttackPattern,
      EnemySpawner.init, stEmpty, cfg800, c6in]
  have h2 : spawnerStateAt cfg800 0 c6inputs 2 = ⟨200000, 2000, 1, 2, 5, 5000, 0, false⟩ := by
    rw [spawnerStateAt_succ cfg800 0 c6inputs 1 (c6in 200000) rfl, h1]
    norm_num [spawnerUpdate, waveStage, shouldStartNewWave, startNewWave,
      scaleDifficulty, shouldSpawnBoss, shouldSpawnEnemy, createRandomEnemy,
      createEnemy, getAvailableEnemyTypes, getEnemyStats, getRandomAttackPattern,
      EnemySpawner.init, stEmpty, cfg800, c6in]
  have h3 : spawnerStateAt cfg800 0 c6inputs 3 = ⟨300000, 2000, 1, 3, 5, 5000, 0, false⟩ := by
    rw [spawnerStateAt_succ cfg800 0 c6inputs 2 (c6in 300000) rfl, h2]
    norm_num [spawnerUpdate, waveStage, shouldStartNewWave, startNewWave,
      scaleDifficulty, shouldSpawnBoss, shouldSpawnEnemy, createRandomEnemy,
      createEnemy, getAvailableEnemyTypes, getEnemyStats, getRandomAttackPattern,
      EnemySpawner.init, stEmpty, cfg800, c6in]
  have h4 : spawnerStateAt cfg800 0 c6inputs 4 = ⟨400000, 2000, 1, 4, 5, 5000, 0, false⟩ := by
    rw [spawnerStateAt_succ cfg800 0 c6inputs 3 (c6in 400000) rfl, h3]
    norm_num [spawnerUpdate, waveStage, shouldStartNewWave, startNewWave,
      scaleDifficulty, shouldSpawnBoss, shouldSpawnEnemy, createRandomEnemy,
      createEnemy, getAvailableEnemyTypes, getEnemyStats, getRandomAttackPattern,
      EnemySpawner.init, stEmpty, cfg800, c6in]
  have h5 : spawnerStateAt cfg800 0 c6inputs 5 = ⟨500000, 2000, 1, 5, 5, 5000, 0, false⟩ := by
    rw [spawnerStateAt_succ cfg800 0 c6inputs 4 (c6in 500000) rfl, h4]
    norm_num [spawnerUpdate, waveStage, shouldStartNewWave, startNewWave,
      scaleDifficulty, shouldSpawnBoss, shouldSpawnEnemy, createRandomEnemy,
      createEnemy, getAvailableEnemyTypes, getEnemyStats, getRandomAttackPattern,
      EnemySpawner.init, stEmpty, cfg800, c6in]
  have h6 : spawnerStateAt cfg800 0 c6inputs 6 = ⟨600000, 1800, 2, 1, 6, 4750, 600000, false⟩ := by
    rw [spawnerStateAt_succ cfg800 0 c6inputs 5 (c6in 600000) rfl, h5]
    norm_num [spawnerUpdate, waveStage, shouldStartNewWave, startNewWave,
      scaleDifficulty, shouldSpawnBoss, shouldSpawnEnemy, createRandomEnemy,
      createEnemy, getAvailableEnemyTypes, getEnemyStats, getRandomAttackPattern,
      EnemySpawner.init, stEmpty, cfg800, c6in]
  have h7 : spawnerStateAt cfg800 0 c6inputs 7 = ⟨700000, 1800, 2, 2, 6, 4750, 600000, false⟩ := by
    rw [spawnerStateAt_succ cfg800 0 c6inputs 6 (c6in 700000) rfl, h6]
    norm_num [spawnerUpdate, waveStage, shouldStartNewWave, startNewWave,
      scaleDifficulty, shouldSpawnBoss, shouldSpawnEnemy, createRandomEnemy,
      createEnemy, getAvailableEnemyTypes, getEnemyStats, getRandomAttackPattern,
      EnemySpawner.init, stEmpty, cfg800, c6in]
  have h8 : spawnerStateAt cfg800 0 c6inputs 8 = ⟨800000, 1800, 2, 3, 6, 4750, 600000, false⟩ := by
    rw [spawnerStateAt_succ cfg800 0 c6inputs 7 (c6in 800000) rfl, h7]
    norm_num [spawnerUpdate, waveStage, shouldStartNewWave, startNewWave,
      scaleDifficulty, shouldSpawnBoss, shouldSpawnEnemy, createRandomEnemy,
      createEnemy, getAvailableEnemyTypes, getEnemyStats, getRandomAttackPattern,
      EnemySpawner.init, stEmpty, cfg800, c6in]
  have h9 : spawnerStateAt cfg800 0 c6inputs 9 = ⟨900000, 1800, 2, 4, 6, 4750, 600000, false⟩ := by
    rw [spawnerStateAt_succ cfg800 0 c6inputs 8 (c6in 900000) rfl, h8]
    norm_num [spawnerUpdate, waveStage, shouldStartNewWave, startNewWave,
      scaleDifficulty, shouldSpawnBoss, shouldSpawnEnemy, createRandomEnemy,
      createEnemy, getAvailableEnemyTypes, getEnemyStats, getRandomAttackPattern,
      EnemySpawner.init, stEmpty, cfg800, c6in]
  have h10 : spawnerStateAt cfg800 0 c6inputs 10 = ⟨1000000, 1800, 2, 5, 6, 4750, 600000, false⟩ := by
    rw [spawnerStateAt_succ cfg800 0 c6inputs 9 (c6in 1000000) rfl, h9]
    norm_num [spawnerUpdate, waveStage, shouldStartNewWave, startNewWave,
      scaleDifficulty, shouldSpawnBoss, shouldSpawnEnemy, createRandomEnemy,
      createEnemy, getAvailableEnemyTypes, getEnemyStats, getRandomAttackPattern,
      EnemySpawner.init, stEmpty, cfg800, c6in]
  have h11 : spawnerStateAt cfg800 0 c6inputs 11 = ⟨1100000, 1800, 2, 6, 6, 4750, 600000, false⟩ := by
    rw [spawnerStateAt_succ cfg800 0 c6inputs 10 (c6in 1100000) rfl, h10]
    norm_num [spawnerUpdate, waveStage, shouldStartNewWave, startNewWave,
      scaleDifficulty, shouldSpawnBoss, shouldSpawnEnemy, createRandomEnemy,
      createEnemy, getAvailableEnemyTypes, getEnemyStats, getRandomAttackPattern,
      EnemySpawner.init, stEmpty, cfg800, c6in]
  have h12 : spawnerStateAt cfg800 0 c6inputs 12 = ⟨1200000, 1620, 3, 1, 7, 9025/2, 1200000, false⟩ := by
    rw [spawnerStateAt_succ cfg800 0 c6inputs 11 (c6in 1200000) rfl, h11]
    norm_num [spawnerUpdate, waveStage, shouldStartNewWave, startNewWave,
      scaleDifficulty, shouldSpawnBoss, shouldSpawnEnemy, createRandomEnemy,
      createEnemy, getAvailableEnemyTypes, getEnemyStats, getRandomAttackPattern,
      EnemySpawner.init, stEmpty, cfg800, c6in]
  have h13 : spawnerStateAt cfg800 0 c6inputs 13 = ⟨1300000, 1620, 3, 2, 7, 9025/2, 1200000, false⟩ := by
    rw [spawnerStateAt_succ cfg800 0 c6inputs 12 (c6in 1300000) rfl, h12]
    norm_num [spawnerUpdate, waveStage, shouldStartNewWave, startNewWave,
      scaleDifficulty, shouldSpawnBoss, shouldSpawnEnemy, createRandomEnemy,
      createEnemy, getAvailableEnemyTypes, getEnemyStats, getRandomAttackPattern,
      EnemySpawner.init, stEmpty, cfg800, c6in]
  have h14 : spawnerStateAt cfg800 0 c6inputs 14 = ⟨1400000, 1620, 3, 3, 7, 9025/2, 1200000, false⟩ := by
    rw [spawnerStateAt_succ cfg800 0 c6inputs 13 (c6in 1400000) rfl, h13]
    norm_num [spawnerUpdate, waveStage, shouldStartNewWave, startNewWave,
      scaleDifficulty, shouldSpawnBoss, shouldSpawnEnemy, createRandomEnemy,
      createEnemy, getAvailableEnemyTypes, getEnemyStats, getRandomAttackPattern,
      EnemySpawner.init, stEmpty, cfg800, c6in]
  have h15 : spawnerStateAt cfg800 0 c6inputs 15 = ⟨1500000, 1620, 3, 4, 7, 9025/2, 1200000, false⟩ := by
    rw [spawnerStateAt_succ cfg800 0 c6inputs 14 (c6in 1500000) rfl, h14]
    norm_num [spawnerUpdate, waveStage, shouldStartNewWave, startNewWave,
      scaleDifficulty, shouldSpawnBoss, shouldSpawnEnemy, createRandomEnemy,
      createEnemy, getAvailableEnemyTypes, getEnemyStats, getRandomAttackPattern,
      EnemySpawner.init, stEmpty, cfg800, c6in]
  have h16 : spawnerStateAt cfg800 0 c6inputs 16 = ⟨1600000, 1620, 3, 5, 7, 9025/2, 1200000, false⟩ := by
    rw [spawnerStateAt_succ cfg800 0 c6inputs 15 (c6in 1600000) rfl, h15]
    norm_num [spawnerUpdate, waveStage, shouldStartNewWave, startNewWave,
      scaleDifficulty, shouldSpawnBoss, shouldSpawnEnemy, createRandomEnemy,
      createEnemy, getAvailableEnemyTypes, getEnemyStats, getRandomAttackPattern,
      EnemySpawner.init, stEmpty, cfg800, c6in]
  have h17 : spawnerStateAt cfg800 0 c6inputs 17 = ⟨1700000, 1620, 3, 6, 7, 9025/2, 1200000, false⟩ := by
    rw [spawnerStateAt_succ cfg800 0 c6inputs 16 (c6in 1700000) rfl, h16]
    norm_num [spawnerUpdate, waveStage, shouldStartNewWave, startNewWave,
      scaleDifficulty, shouldSpawnBoss, shouldSpawnEnemy, createRandomEnemy,
      createEnemy, getAvailableEnemyTypes, getEnemyStats, getRandomAttackPattern,
      EnemySpawner.init, stEmpty, cfg800, c6in]
  have h18 : spawnerStateAt cfg800 0 c6inputs 18 = ⟨1800000, 1620, 3, 7, 7, 9025/2, 1200000, false⟩ := by
    rw [spawnerStateAt_succ cfg800 0 c6inputs 17 (c6in 1800000) rfl, h17]
    norm_num [spawnerUpdate, waveStage, shouldStartNewWave, startNewWave,
      scaleDifficulty, shouldSpawnBoss, shouldSpawnEnemy, createRandomEnemy,
      createEnemy, getAvailableEnemyTypes, getEnemyStats, getRandomAttackPattern,
      EnemySpawner.init, stEmpty, cfg800, c6in]
  have h19 : spawnerStateAt cfg800 0 c6inputs 19 = ⟨1900000, 1458, 4, 1, 8, 34295/8, 1900000, false⟩ := by
    rw [spawnerStateAt_succ cfg800 0 c6inputs 18 (c6in 1900000) rfl, h18]
    norm_num [spawnerUpdate, waveStage, shouldStartNewWave, startNewWave,
      scaleDifficulty, shouldSpawnBoss, shouldSpawnEnemy, createRandomEnemy,
      createEnemy, getAvailableEnemyTypes, getEnemyStats, getRandomAttackPattern,
      EnemySpawner.init, stEmpty, cfg800, c6in]
  have h20 : spawnerStateAt cfg800 0 c6inputs 20 = ⟨2000000, 1458, 4, 2, 8, 34295/8, 1900000, false⟩ := by
    rw [spawnerStateAt_succ cfg800 0 c6inputs 19 (c6in 2000000) rfl, h19]
    norm_num [spawnerUpdate, waveStage, shouldStartNewWave, startNewWave,
      scaleDifficulty, shouldSpawnBoss, shouldSpawnEnemy, createRandomEnemy,
      createEnemy, getAvailableEnemyTypes, getEnemyStats, getRandomAttackPattern,
      EnemySpawner.init, stEmpty, cfg800, c6in]
  have h21 : spawnerStateAt cfg800 0 c6inputs 21 = ⟨2100000, 1458, 4, 3, 8, 34295/8, 1900000, false⟩ := by
    rw [spawnerStateAt_succ cfg800 0 c6inputs 20 (c6in 2100000) rfl, h20]
    norm_num [spawnerUpdate, waveStage, shouldStartNewWave, startNewWave,
      scaleDifficulty, shouldSpawnBoss, shouldSpawnEnemy, createRandomEnemy,
      createEnemy, getAvailableEnemyTypes, getEnemyStats, getRandomAttackPattern,
      EnemySpawner.init, stEmpty, cfg800, c6in]
  have h22 : spawnerStateAt cfg800 0 c6inputs 22 = ⟨2200000, 1458, 4, 4, 8, 34295/8, 1900000, false⟩ := by
    rw [spawnerStateAt_succ cfg800 0 c6inputs 21 (c6in 2200000) rfl, h21]
    norm_num [spawnerUpdate, waveStage, shouldStartNewWave, startNewWave,
      scaleDifficulty, shouldSpawnBoss, shouldSpawnEnemy, createRandomEnemy,
      createEnemy, getAvailableEnemyTypes, getEnemyStats, getRandomAttackPattern,
      EnemySpawner.init, stEmpty, cfg800, c6in]
  have h23 : spawnerStateAt cfg800 0 c6inputs 23 = ⟨2300000, 1458, 4, 5, 8, 34295/8, 1900000, false⟩ := by
    rw [spawnerStateAt_succ cfg800 0 c6inputs 22 (c6in 2300000) rfl, h22]
    norm_num [spawnerUpdate, waveStage, shouldStartNewWave, startNewWave,
      scaleDifficulty, shouldSpawnBoss, shouldSpawnEnemy, createRandomEnemy,
      createEnemy, getAvailableEnemyTypes, getEnemyStats, getRandomAttackPattern,
      EnemySpawner.init, stEmpty, cfg800, c6in]
  have h24 : spawnerStateAt cfg800 0 c6inputs 24 = ⟨2400000, 1458, 4, 6, 8, 34295/8, 1900000, false⟩ := by
    rw [spawnerStateAt_succ cfg800 0 c6inputs 23 (c6in 2400000) rfl, h23]
    norm_num [spawnerUpdate, waveStage, shouldStartNewWave, startNewWave,
      scaleDifficulty, shouldSpawnBoss, shouldSpawnEnemy, createRandomEnemy,
      createEnemy, getAvailableEnemyTypes, getEnemyStats, getRandomAttackPattern,
      EnemySpawner.init, stEmpty, cfg800, c6in]
  have h25 : spawnerStateAt cfg800 0 c6inputs 25 = ⟨2500000, 1458, 4, 7, 8, 34295/8, 1900000, false⟩ := by
    rw [spawnerStateAt_succ cfg800 0 c6inputs 24 (c6in 2500000) rfl, h24]
    norm_num [spawnerUpdate, waveStage, shouldStartNewWave, startNewWave,
      scaleDifficulty, shouldSpawnBoss, shouldSpawnEnemy, createRandomEnemy,
      createEnemy, getAvailableEnemyTypes, getEnemyStats, getRandomAttackPattern,
      EnemySpawner.init, stEmpty, cfg800, c6in]
  have h26 : spawnerStateAt cfg800 0 c6inputs 26 = ⟨2600000, 1458, 4, 8, 8, 34295/8, 1900000, false⟩ := by
    rw [spawnerStateAt_succ cfg800 0 c6inputs 25 (c6in 2600000) rfl, h25]
    norm_num [spawnerUpdate, waveStage, shouldStartNewWave, startNewWave,
      scaleDifficulty, shouldSpawnBoss, shouldSpawnEnemy, createRandomEnemy,
      createEnemy, getAvailableEnemyTypes, getEnemyStats, getRandomAttackPattern,
      EnemySpawner.init, stEmpty, cfg800, c6in]
  have h27 : spawnerStateAt cfg800 0 c6inputs 27 = ⟨2700000, 6561/5, 5, 1, 9, 130321/32, 2700000, false⟩ := by
    rw [spawnerStateAt_succ cfg800 0 c6inputs 26 (c6in 2700000) rfl, h26]
    norm_num [spawnerUpdate, waveStage, shouldStartNewWave, startNewWave,
      scaleDifficulty, shouldSpawnBoss, shouldSpawnEnemy, createRandomEnemy,
      createEnemy, getAvailableEnemyTypes, getEnemyStats, getRandomAttackPattern,
      EnemySpawner.init, stEmpty, cfg800, c6in]
  have h28 : spawnerStateAt cfg800 0 c6inputs 28 = ⟨2800000, 6561/5, 5, 2, 9, 130321/32, 2700000, false⟩ := by
    rw [spawnerStateAt_succ cfg800 0 c6inputs 27 (c6in 2800000) rfl, h27]
    norm_num [spawnerUpdate, waveStage, shouldStartNewWave, startNewWave,
      scaleDifficulty, shouldSpawnBoss, shouldSpawnEnemy, createRandomEnemy,
      createEnemy, getAvailableEnemyTypes, getEnemyStats, getRandomAttackPattern,
      EnemySpawner.init, stEmpty, cfg800, c6in]
  have h29 : spawnerStateAt cfg800 0 c6inputs 29 = ⟨2900000, 6561/5, 5, 3, 9, 130321/32, 2700000, false⟩ := by
    rw [spawnerStateAt_succ cfg800 0 c6inputs 28 (c6in 2900000) rfl, h28]
    norm_num [spawnerUpdate, waveStage, shouldStartNewWave, startNewWave,
      scaleDifficulty, shouldSpawnBoss, shouldSpawnEnemy, createRandomEnemy,
      createEnemy, getAvailableEnemyTypes, getEnemyStats, getRandomAttackPattern,
      EnemySpawner.init, stEmpty, cfg800, c6in]
  have h30 : spawnerStateAt cfg800 0 c6inputs 30 = ⟨3000000, 6561/5, 5, 4, 9, 130321/32, 2700000, false⟩ := by
    rw [spawnerStateAt_succ cfg800 0 c6inputs 29 (c6in 3000000) rfl, h29]
    norm_num [spawnerUpdate, waveStage, shouldStartNewWave, startNewWave,
      scaleDifficulty, shouldSpawnBoss, shouldSpawnEnemy, createRandomEnemy,
      createEnemy, getAvailableEnemyTypes, getEnemyStats, getRandomAttackPattern,
      EnemySpawner.init, stEmpty, cfg800, c6in]
  have h31 : spawnerStateAt cfg800 0 c6inputs 31 = ⟨3100000, 6561/5, 5, 5, 9, 130321/32, 2700000, false⟩ := by
    rw [spawnerStateAt_succ cfg800 0 c6inputs 30 (c6in 3100000) rfl, h30]
    norm_num [spawnerUpdate, waveStage, shouldStartNewWave, startNewWave,
      scaleDifficulty, shouldSpawnBoss, shouldSpawnEnemy, createRandomEnemy,
      createEnemy, getAvailableEnemyTypes, getEnemyStats, getRandomAttackPattern,
      EnemySpawner.init, stEmpty, cfg800, c6in]
  have h32 : spawnerStateAt cfg800 0 c6inputs 32 = ⟨3200000, 6561/5, 5, 6, 9, 130321/32, 2700000, false⟩ := by
    rw [spawnerStateAt_succ cfg800 0 c6inputs 31 (c6in 3200000) rfl, h31]
    norm_num [spawnerUpdate, waveStage, shouldStartNewWave, startNewWave,
      scaleDifficulty, shouldSpawnBoss, shouldSpawnEnemy, createRandomEnemy,
      createEnemy, getAvailableEnemyTypes, getEnemyStats, getRandomAttackPattern,
      EnemySpawner.init, stEmpty, cfg800, c6in]
  have h33 : spawnerStateAt cfg800 0 c6inputs 33 = ⟨3300000, 6561/5, 5, 7, 9, 130321/32, 2700000, false⟩ := by
    rw [spawnerStateAt_succ cfg800 0 c6inputs 32 (c6in 3300000) rfl, h32]
    norm_num [spawnerUpdate, waveStage, shouldStartNewWave, startNewWave,
      scaleDifficulty, shouldSpawnBoss, shouldSpawnEnemy, createRandomEnemy,
      createEnemy, getAvailableEnemyTypes, getEnemyStats, getRandomAttackPattern,
      EnemySpawner.init, stEmpty, cfg800, c6in]
  have h34 : spawnerStateAt cfg800 0 c6inputs 34 = ⟨3400000, 6561/5, 5, 8, 9, 130321/32, 2700000, false⟩ := by
    rw [spawnerStateAt_succ cfg800 0 c6inputs 33 (c6in 3400000) rfl, h33]
    norm_num [spawnerUpdate, waveStage, shouldStartNewWave, startNewWave,
      scaleDifficulty, shouldSpawnBoss, shouldSpawnEnemy, createRandomEnemy,
      createEnemy, getAvailableEnemyTypes, getEnemyStats, getRandomAttackPattern,
      EnemySpawner.init, stEmpty, cfg800, c6in]
  have hboss : bossOutAt cfg800 0 c6inputs 34 = true := by
    unfold bossOutAt
    rw [show c6inputs[34]? = some (c6in 3500000) from rfl, h34]
    norm_num [createBoss, getBossStats, spawnerUpdate, waveStage, shouldStartNewWave, startNewWave,
      scaleDifficulty, shouldSpawnBoss, shouldSpawnEnemy, createRandomEnemy,
      createEnemy, getAvailableEnemyTypes, getEnemyStats, getRandomAttackPattern,
      EnemySpawner.init, stEmpty, cfg800, c6in]
  exact ⟨hboss, ((boss_cadence cfg800 0 c6inputs).1 34 hboss).1⟩

end SpaceShooter
